import Mathlib

/-
  Shallow embedding of the jlox parsing/evaluation pipeline
  (src/scanner.rs, src/parser.rs, src/interpreter.rs, src/obj/*.rs).

  Modelling conventions:
  * `f64` is modelled by `Frac`, an exact unnormalized fraction.  Every
    numeric value exercised by the claims is an integer on which
    IEEE-754 double arithmetic is exact and agrees with `Frac`;
    divergences (rounding, division by zero producing `inf`, `NaN`
    behaviour) are outside the values any claim touches.
  * `usize` arithmetic is modelled by `Nat`, except where the source can
    underflow: `Parser::previous` computes `self.current - 1`, which for
    `current == 0` underflows (panic in a debug build; in a release
    build it wraps to `2^64 - 1`, an out-of-bounds index for any real
    `Vec`, so `get` yields `None` and a `TokenAccessError` is produced).
    The model makes that case explicit.
  * `Rc<RefCell<Environment>>` is modelled as an arena: the interpreter
    state holds a heap (list) of environment records addressed by index,
    as suggested by the design notes of the specification.  Cloning an
    `Rc` handle is copying the index; `borrow_mut` mutation is updating
    the heap at the index.
  * A Rust method returning `Result<T>` on a `&mut self` receiver
    becomes a function from the state to `Except Error T × State` (the
    state reached so far is kept on errors, as Rust keeps `self`); a
    `&self` receiver needs no output state.  Each `?` in the source is
    one `match` propagating the error case.
  * Loops and non-structural recursion take an explicit fuel argument;
    exhausted fuel yields `none` ("the model gives no result"), which is
    distinct from every behaviour of the program, so those functions
    return `Option (Except Error T × State)`.
  * `println!` / `eprintln!` effects are modelled as explicit lists: the
    interpreter state carries the list of printed values, and the
    scanner/parser entry points return the list of reported errors next
    to their result.
-/

set_option maxRecDepth 20000

/-- Token kinds, from `src/obj/token_type.rs` (`enum TokenType`). -/
inductive TokenType where
  | LeftParen | RightParen | LeftBrace | RightBrace
  | Comma | Dot | Minus | Plus | Semicolon | Slash | Star
  | Bang | BangEqual | Equal | EqualEqual
  | Greater | GreaterEqual | Less | LessEqual
  | Identifier | String | Number
  | And | Class | Else | False | Fun | For | If | Nil | Or
  | Print | Return | Super | This | True | Var | While
  | Eof
deriving DecidableEq, BEq, Repr

/-- Exact fraction: the model of `f64`.  Kept unnormalized (no gcd) so
that every arithmetic operation reduces structurally.  On the integral
values the claims exercise this agrees with IEEE-754 double arithmetic;
`inf`/`NaN` behaviour (division by zero) is not modelled and no claim
exercises it. -/
structure Frac where
  num : Int
  den : Nat
deriving DecidableEq, Repr

instance : OfNat Frac n := ⟨⟨n, 1⟩⟩

/-- Fraction addition (exact, denominators multiplied). -/
def Frac.add (a b : Frac) : Frac := ⟨a.num * b.den + b.num * a.den, a.den * b.den⟩

/-- Fraction subtraction. -/
def Frac.sub (a b : Frac) : Frac := ⟨a.num * b.den - b.num * a.den, a.den * b.den⟩

/-- Fraction multiplication. -/
def Frac.mul (a b : Frac) : Frac := ⟨a.num * b.num, a.den * b.den⟩

/-- Fraction negation. -/
def Frac.neg (a : Frac) : Frac := ⟨-a.num, a.den⟩

/-- Fraction division: exact when the divisor is non-zero.  (Rust `f64`
division by zero produces `inf`/`NaN`, which this model does not
represent; no claim exercises that path.) -/
def Frac.div (a b : Frac) : Frac :=
  if b.num < 0 then ⟨-(a.num * b.den), a.den * b.num.natAbs⟩
  else ⟨a.num * b.den, a.den * b.num.natAbs⟩

/-- Value equality of fractions (`f64` `==`), by cross-multiplication. -/
def Frac.beq (a b : Frac) : Bool := a.num * b.den == b.num * a.den

/-- Value order of fractions (`f64` `<`), by cross-multiplication. -/
def Frac.blt (a b : Frac) : Bool := decide (a.num * b.den < b.num * a.den)

/-- Value order of fractions (`f64` `<=`), by cross-multiplication. -/
def Frac.ble (a b : Frac) : Bool := decide (a.num * b.den ≤ b.num * a.den)

/-- Runtime values, from `src/value.rs` (`enum Value`).  `f64` is
modelled by `Frac` (see the header comment). -/
inductive Value where
  | String (s : String)
  | Number (n : Frac)
  | Bool (b : Bool)
  | Nil
deriving DecidableEq, Repr

/-- `PartialEq for Value` (derived in Rust): structural, with the
`Number` case comparing `f64` values. -/
def valueBeq : Value → Value → Bool
  | .String a, .String b => a == b
  | .Number a, .Number b => a.beq b
  | .Bool a, .Bool b => a == b
  | .Nil, .Nil => true
  | _, _ => false

instance : BEq Value := ⟨valueBeq⟩

/-- Tokens, from `src/obj/token.rs` (`struct Token`).  The scanner of
this snapshot still attaches the legacy `Literal::True/False/Nil`
literals to keyword tokens; those are represented by the corresponding
`Value`s (the parser never reads them). -/
structure Token where
  token_type : TokenType
  lexeme : String
  literal : Option Value
  line : Nat
deriving DecidableEq, Repr

/-- Expression AST, from `src/obj/expression.rs` (`enum Expression`). -/
inductive Expression where
  | Assign (name : Token) (value : Expression)
  | Binary (left : Expression) (op : Token) (right : Expression)
  | Grouping (e : Expression)
  | Logical (left : Expression) (op : Token) (right : Expression)
  | Unary (op : Token) (right : Expression)
  | Literal (v : Value)
  | Variable (name : Token)
deriving DecidableEq, Repr

/-- Statement AST, from `src/obj/statement.rs` (`enum Statement`). -/
inductive Statement where
  | Block (stmts : List Statement)
  | Expression (e : Expression)
  | If (cond : Expression) (thenB : Statement) (elseB : Option Statement)
  | Print (e : Expression)
  | Var (name : Token) (init : Option Expression)
  | While (cond : Expression) (body : Statement)
deriving Repr

/-- Scan errors, from `src/errors.rs` (`enum ScanError`). -/
inductive ScanError where
  | HadError
  | CharacterAccessError (line : Nat)
  | UnexpectedCharacter (c : Char) (line : Nat)
  | UnterminatedString (line : Nat)
deriving DecidableEq, Repr

/-- Parse errors, from `src/errors.rs` (`enum ParseError`), spelling
(including the `ExprectedLeftParen` typo) kept from the source. -/
inductive ParseError where
  | HadError
  | TokenAccessError (i : Nat)
  | UnterminatedGrouping (line : Nat)
  | UnterminatedPrintStatement (line : Nat)
  | UnterminatedExpressionStatement (line : Nat)
  | UnterminatedVarDeclaration (line : Nat)
  | UnterminatedBlock (line : Nat)
  | ExpectedIdentifier (line : Nat)
  | ExprectedLeftParen (line : Nat)
  | ExpectedRightParen (line : Nat)
  | ExpectedExpression (line : Nat)
  | ExpectedSemicolon (line : Nat)
  | NoLiteralOnToken (line : Nat)
  | InvalidAssignmentTarget
deriving DecidableEq, Repr

/-- Runtime errors, from `src/errors.rs` (`enum RuntimeError`). -/
inductive RuntimeError where
  | NumberOperand
  | IncompatibleTypes
  | UndefinedVariable
  | Unknown
deriving DecidableEq, Repr

/-! ### Scanner, from `src/scanner.rs`.

The source string is modelled as its list of characters.  The Rust code
indexes characters with `chars().nth` but slices lexemes with byte
ranges; the two agree on ASCII sources, which is all the claims use (the
model slices by character index, so `get_lexeme_text`'s byte-range `get`
cannot fail and is modelled total).  `char::is_numeric` etc. are
modelled by their ASCII restrictions for the same reason. -/

/-- Scanner state, from `struct Scanner`. -/
structure Scanner where
  source : List Char
  tokens : List Token
  start : Nat
  current : Nat
  line : Nat
deriving DecidableEq, Repr

namespace Scanner

/-- `Scanner::is_at_end`. -/
def is_at_end (sc : Scanner) : Bool := decide (sc.current ≥ sc.source.length)

/-- `Scanner::peek` (reads `self`, does not mutate). -/
def peek (sc : Scanner) : Except ScanError Char :=
  match sc.source.get? sc.current with
  | some c => .ok c
  | none => .error (.CharacterAccessError sc.line)

/-- `Scanner::peek_next`. -/
def peek_next (sc : Scanner) : Except ScanError Char :=
  match sc.source.get? (sc.current + 1) with
  | some c => .ok c
  | none => .error (.CharacterAccessError sc.line)

/-- `Scanner::advance`: saves the `peek` result, then increments
`current` unconditionally. -/
def advance (sc : Scanner) : Except ScanError Char × Scanner :=
  (peek sc, { sc with current := sc.current + 1 })

/-- `Scanner::match_advance`. -/
def match_advance (expected : Char) (sc : Scanner) : Except ScanError Bool × Scanner :=
  if sc.is_at_end then (.ok false, sc)
  else
    match peek sc with
    | .error e => (.error e, sc)
    | .ok c =>
      if c = expected then (.ok true, { sc with current := sc.current + 1 })
      else (.ok false, sc)

/-- `Scanner::can_peek_next`. -/
def can_peek_next (sc : Scanner) : Bool := decide (sc.current < sc.source.length - 1)

/-- `Scanner::get_lexeme_text`: the source slice `start..current`
(total in the char model; see the section comment). -/
def get_lexeme_text (sc : Scanner) : String :=
  String.mk ((sc.source.drop sc.start).take (sc.current - sc.start))

/-- `Scanner::add_token`. -/
def add_token (token_type : TokenType) (sc : Scanner) : Scanner :=
  { sc with tokens := sc.tokens ++ [⟨token_type, sc.get_lexeme_text, none, sc.line⟩] }

/-- `Scanner::add_token_literal`. -/
def add_token_literal (token_type : TokenType) (literal : Value) (sc : Scanner) : Scanner :=
  { sc with tokens := sc.tokens ++ [⟨token_type, sc.get_lexeme_text, some literal, sc.line⟩] }

/-- Digit-string to `Nat` (helper for the model of `str::parse::<f64>`);
`none` if the string is empty or contains a non-digit. -/
def digitsToNat : List Char → Option Nat
  | [] => none
  | cs => go cs 0
where
  go : List Char → Nat → Option Nat
    | [], acc => some acc
    | c :: rest, acc =>
      if c.isDigit then go rest (acc * 10 + (c.toNat - '0'.toNat))
      else none

/-- Model of `lexeme.parse::<f64>()` for the lexemes the scanner
produces (digits, optionally a dot and more digits); exact as a
fraction, which coincides with `f64` on the integer literals the claims
exercise. -/
def ratOfDecimal (cs : List Char) : Option Frac :=
  match cs.span (· ≠ '.') with
  | (intPart, []) => (digitsToNat intPart).map (fun n => (⟨n, 1⟩ : Frac))
  | (intPart, '.' :: fracPart) =>
    match digitsToNat intPart, digitsToNat fracPart with
    | some ip, some fp => some (⟨ip * 10 ^ fracPart.length + fp, 10 ^ fracPart.length⟩ : Frac)
    | _, _ => none
  | _ => none

/-- `match_keyword` (free function in `src/scanner.rs`). -/
def match_keyword (lexeme : String) : Option TokenType :=
  if lexeme = "and" then some .And
  else if lexeme = "class" then some .Class
  else if lexeme = "else" then some .Else
  else if lexeme = "false" then some .False
  else if lexeme = "for" then some .For
  else if lexeme = "fun" then some .Fun
  else if lexeme = "if" then some .If
  else if lexeme = "nil" then some .Nil
  else if lexeme = "or" then some .Or
  else if lexeme = "print" then some .Print
  else if lexeme = "return" then some .Return
  else if lexeme = "super" then some .Super
  else if lexeme = "this" then some .This
  else if lexeme = "true" then some .True
  else if lexeme = "var" then some .Var
  else if lexeme = "while" then some .While
  else none

/-- The code after `handle_string`'s while loop: report an unterminated
string, or consume the closing quote and emit the literal token. -/
def closeString (sc : Scanner) : Except ScanError Unit × Scanner :=
  if sc.is_at_end then (.error (.UnterminatedString sc.line), sc)
  else
    match advance sc with
    | (.error e, sc1) => (.error e, sc1)
    | (.ok _, sc1) =>
      let value := String.mk ((sc1.source.drop (sc1.start + 1)).take ((sc1.current - 1) - (sc1.start + 1)))
      (.ok (), add_token_literal .String (.String value) sc1)

/-- `Scanner::handle_string`: the scan loop over the string body
(fuelled), then `closeString`. -/
def handle_string : Nat → Scanner → Option (Except ScanError Unit × Scanner)
  | 0, _ => none
  | fuel + 1, sc =>
    if !sc.is_at_end then
      match peek sc with
      | .error e => some (.error e, sc)
      | .ok c =>
        if c ≠ '"' then
          -- if peek == newline { line += 1 }; advance
          let sc1 := if c = '\n' then { sc with line := sc.line + 1 } else sc
          match advance sc1 with
          | (.error e, sc2) => some (.error e, sc2)
          | (.ok _, sc2) => handle_string fuel sc2
        else some (closeString sc)
    else some (closeString sc)

/-- The digit loop of `handle_number`:
`while !is_at_end && peek.is_numeric { advance }`. -/
def digitLoop : Nat → Scanner → Option (Except ScanError Unit × Scanner)
  | 0, _ => none
  | fuel + 1, sc =>
    if !sc.is_at_end then
      match peek sc with
      | .error e => some (.error e, sc)
      | .ok c =>
        if c.isDigit then
          match advance sc with
          | (.error e, sc1) => some (.error e, sc1)
          | (.ok _, sc1) => digitLoop fuel sc1
        else some (.ok (), sc)
    else some (.ok (), sc)

/-- The lexeme-parsing tail of `handle_number`: parse the lexeme as a
number and emit the literal token (`none` if the lexeme is not decimal,
which scanner-produced lexemes always are). -/
def finishNumber (sc : Scanner) : Option (Except ScanError Unit × Scanner) :=
  match ratOfDecimal sc.get_lexeme_text.data with
  | some q => some (.ok (), add_token_literal .Number (.Number q) sc)
  | none => none

/-- `Scanner::handle_number`: integer digits, then optionally a dot
followed by fraction digits, then the literal token. -/
def handle_number (fuel : Nat) (sc : Scanner) : Option (Except ScanError Unit × Scanner) :=
  match digitLoop fuel sc with
  | none => none
  | some (.error e, sc1) => some (.error e, sc1)
  | some (.ok _, sc1) =>
    if !sc1.is_at_end then
      match peek sc1 with
      | .error e => some (.error e, sc1)
      | .ok c =>
        if c = '.' ∧ sc1.can_peek_next then
          match peek_next sc1 with
          | .error e => some (.error e, sc1)
          | .ok c2 =>
            if c2.isDigit then
              match advance sc1 with
              | (.error e, sc2) => some (.error e, sc2)
              | (.ok _, sc2) =>
                match digitLoop fuel sc2 with
                | none => none
                | some (.error e, sc3) => some (.error e, sc3)
                | some (.ok _, sc3) => finishNumber sc3
            else finishNumber sc1
        else finishNumber sc1
    else finishNumber sc1

/-- The keyword-dispatch tail of `handle_identifier` (the legacy
`Literal::True/False/Nil` become the corresponding `Value`s). -/
def finishIdentifier (sc : Scanner) : Scanner :=
  let text := sc.get_lexeme_text
  match match_keyword text with
  | some token_type =>
    match token_type with
    | .True => add_token_literal .True (.Bool true) sc
    | .False => add_token_literal .False (.Bool false) sc
    | .Nil => add_token_literal .Nil .Nil sc
    | _ => add_token token_type sc
  | none => add_token .Identifier sc

/-- `Scanner::handle_identifier`: the alphanumeric loop, then the
keyword dispatch. -/
def handle_identifier : Nat → Scanner → Option (Except ScanError Unit × Scanner)
  | 0, _ => none
  | fuel + 1, sc =>
    if !sc.is_at_end then
      match peek sc with
      | .error e => some (.error e, sc)
      | .ok c =>
        if c.isAlphanum then
          match advance sc with
          | (.error e, sc1) => some (.error e, sc1)
          | (.ok _, sc1) => handle_identifier fuel sc1
        else some (.ok (), finishIdentifier sc)
    else some (.ok (), finishIdentifier sc)

/-- The `//`-comment loop of `scan_token`:
`while !is_at_end && peek != newline { advance }`. -/
def commentLoop : Nat → Scanner → Option (Except ScanError Unit × Scanner)
  | 0, _ => none
  | fuel + 1, sc =>
    if !sc.is_at_end then
      match peek sc with
      | .error e => some (.error e, sc)
      | .ok c =>
        if c ≠ '\n' then
          match advance sc with
          | (.error e, sc1) => some (.error e, sc1)
          | (.ok _, sc1) => commentLoop fuel sc1
        else some (.ok (), sc)
    else some (.ok (), sc)

/-- `Scanner::scan_token`: dispatch on the advanced character. -/
def scan_token (fuel : Nat) (sc : Scanner) : Option (Except ScanError Unit × Scanner) :=
  match advance sc with
  | (.error e, sc0) => some (.error e, sc0)
  | (.ok c, sc0) =>
    if c = ' ' ∨ c = '\r' ∨ c = '\t' then some (.ok (), sc0)
    else if c = '\n' then some (.ok (), { sc0 with line := sc0.line + 1 })
    else if c = '(' then some (.ok (), add_token .LeftParen sc0)
    else if c = ')' then some (.ok (), add_token .RightParen sc0)
    else if c = '{' then some (.ok (), add_token .LeftBrace sc0)
    else if c = '}' then some (.ok (), add_token .RightBrace sc0)
    else if c = ',' then some (.ok (), add_token .Comma sc0)
    else if c = '.' then some (.ok (), add_token .Dot sc0)
    else if c = '-' then some (.ok (), add_token .Minus sc0)
    else if c = '+' then some (.ok (), add_token .Plus sc0)
    else if c = ';' then some (.ok (), add_token .Semicolon sc0)
    else if c = '*' then some (.ok (), add_token .Star sc0)
    else if c = '!' then
      match match_advance '=' sc0 with
      | (.error e, sc1) => some (.error e, sc1)
      | (.ok b, sc1) => some (.ok (), add_token (if b then .BangEqual else .Bang) sc1)
    else if c = '=' then
      match match_advance '=' sc0 with
      | (.error e, sc1) => some (.error e, sc1)
      | (.ok b, sc1) => some (.ok (), add_token (if b then .EqualEqual else .Equal) sc1)
    else if c = '<' then
      match match_advance '=' sc0 with
      | (.error e, sc1) => some (.error e, sc1)
      | (.ok b, sc1) => some (.ok (), add_token (if b then .LessEqual else .Less) sc1)
    else if c = '>' then
      match match_advance '=' sc0 with
      | (.error e, sc1) => some (.error e, sc1)
      | (.ok b, sc1) => some (.ok (), add_token (if b then .GreaterEqual else .Greater) sc1)
    else if c = '/' then
      match match_advance '/' sc0 with
      | (.error e, sc1) => some (.error e, sc1)
      | (.ok true, sc1) => commentLoop fuel sc1
      | (.ok false, sc1) => some (.ok (), add_token .Slash sc1)
    else if c = '"' then handle_string fuel sc0
    else if c.isDigit then handle_number fuel sc0
    else if c.isAlpha then handle_identifier fuel sc0
    else some (.error (.UnexpectedCharacter c sc0.line), sc0)

/-- The scan loop of `Scanner::scan_tokens`: errors from `scan_token`
are reported (collected in `errs`) and scanning continues; at the end an
`Eof` token is appended and the aggregate result is built. -/
def scanLoop : Nat → Scanner → List ScanError → Option (List ScanError × Except ScanError (List Token))
  | 0, _, _ => none
  | fuel + 1, sc, errs =>
    if sc.is_at_end then
      let toks := sc.tokens ++ [⟨.Eof, "", none, sc.line⟩]
      some (errs, if errs.isEmpty then .ok toks else .error .HadError)
    else
      match scan_token fuel { sc with start := sc.current } with
      | none => none
      | some (.ok _, sc') => scanLoop fuel sc' errs
      | some (.error e, sc') => scanLoop fuel sc' (errs ++ [e])

end Scanner

/-- `scan_tokens` (public entry of `src/scanner.rs`): returns the list
of reported scan errors next to the result. -/
def scan_tokens (fuel : Nat) (source : String) : Option (List ScanError × Except ScanError (List Token)) :=
  Scanner.scanLoop fuel ⟨source.data, [], 0, 0, 1⟩ []

/-! ### Parser, from `src/parser.rs`.

`struct Parser { tokens, current }` holds an immutable token `Vec` and a
mutable cursor.  The model passes the immutable `tokens` as a fixed
argument to every function and threads only the cursor `current` as
state, which is the same data split into its constant and mutable
parts. -/

namespace Parser

/-- `Parser::is_at_end`: `current >= tokens.len() - 1` (the subtraction
is exact for the `Eof`-terminated, hence non-empty, token sequences the
parser receives). -/
def is_at_end (tokens : List Token) (current : Nat) : Bool :=
  decide (current ≥ tokens.length - 1)

/-- `Parser::peek` (reads `self`, does not mutate). -/
def peek (tokens : List Token) (current : Nat) : Except ParseError Token :=
  match tokens.get? current with
  | some t => .ok t
  | none => .error (.TokenAccessError current)

/-- `Parser::previous`: `tokens.get(current - 1)`.  For `current == 0`
the `usize` subtraction underflows (debug builds panic; release builds
wrap to `2^64 - 1`, which is out of bounds for any real `Vec`, and the
failed `get` produces the `TokenAccessError`); the model makes that case
an explicit `TokenAccessError`. -/
def previous (tokens : List Token) (current : Nat) : Except ParseError Token :=
  if current = 0 then .error (.TokenAccessError current)
  else
    match tokens.get? (current - 1) with
    | some t => .ok t
    | none => .error (.TokenAccessError current)

/-- `Parser::advance`: saves the `peek` result, increments `current`
only when not at the end. -/
def advance (tokens : List Token) (current : Nat) : Except ParseError Token × Nat :=
  (peek tokens current, if is_at_end tokens current then current else current + 1)

/-- `Parser::check` (reads `self`, does not mutate). -/
def check (token_type : TokenType) (tokens : List Token) (current : Nat) : Except ParseError Bool :=
  if is_at_end tokens current then .ok false
  else
    match peek tokens current with
    | .error e => .error e
    | .ok t => .ok (t.token_type == token_type)

/-- `Parser::consume`. -/
def consume (token_type : TokenType) (error : ParseError) (tokens : List Token) (current : Nat) :
    Except ParseError Token × Nat :=
  match check token_type tokens current with
  | .error e => (.error e, current)
  | .ok true => advance tokens current
  | .ok false => (.error error, current)

/-- `Parser::match_token_types` (the array argument becomes a list). -/
def match_token_types : List TokenType → List Token → Nat → Except ParseError Bool × Nat
  | [], _, current => (.ok false, current)
  | t :: rest, tokens, current =>
    match check t tokens current with
    | .error e => (.error e, current)
    | .ok true =>
      match advance tokens current with
      | (.error e, c') => (.error e, c')
      | (.ok _, c') => (.ok true, c')
    | .ok false => match_token_types rest tokens current

/-- The while loop of `Parser::synchronize`: `tt` is the token type
returned by the latest `advance`. -/
def syncLoop : Nat → TokenType → List Token → Nat → Option (Except ParseError Unit × Nat)
  | 0, _, _, _ => none
  | fuel + 1, tt, tokens, current =>
    if is_at_end tokens current then some (.ok (), current)
    else if tt == .Semicolon then some (.ok (), current)
    else
      match tt with
      | .Class | .For | .Fun | .If | .Print | .Return | .Var | .While => some (.ok (), current)
      | _ =>
        match advance tokens current with
        | (.error e, c') => some (.error e, c')
        | (.ok t, c') => syncLoop fuel t.token_type tokens c'

/-- `Parser::synchronize`. -/
def synchronize (fuel : Nat) (tokens : List Token) (current : Nat) : Option (Except ParseError Unit × Nat) :=
  match advance tokens current with
  | (.error e, c') => some (.error e, c')
  | (.ok t, c') => syncLoop fuel t.token_type tokens c'

mutual

/-- `Parser::expression`. -/
def expression : Nat → List Token → Nat → Option (Except ParseError Expression × Nat)
  | 0, _, _ => none
  | fuel + 1, tokens, current => assignment fuel tokens current

/-- `Parser::assignment`. -/
def assignment : Nat → List Token → Nat → Option (Except ParseError Expression × Nat)
  | 0, _, _ => none
  | fuel + 1, tokens, current =>
    match orP fuel tokens current with
    | none => none
    | some (.error e, c1) => some (.error e, c1)
    | some (.ok expr, c1) =>
      match match_token_types [.Equal] tokens c1 with
      | (.error e, c2) => some (.error e, c2)
      | (.ok true, c2) =>
        match assignment fuel tokens c2 with
        | none => none
        | some (.error e, c3) => some (.error e, c3)
        | some (.ok value, c3) =>
          match expr with
          | .Variable name => some (.ok (.Assign name value), c3)
          | _ => some (.error .InvalidAssignmentTarget, c3)
      | (.ok false, c2) => some (.ok expr, c2)

/-- `Parser::or`. -/
def orP : Nat → List Token → Nat → Option (Except ParseError Expression × Nat)
  | 0, _, _ => none
  | fuel + 1, tokens, current =>
    match andP fuel tokens current with
    | none => none
    | some (.error e, c1) => some (.error e, c1)
    | some (.ok expr, c1) => orLoop fuel expr tokens c1

/-- The while loop of `Parser::or`. -/
def orLoop : Nat → Expression → List Token → Nat → Option (Except ParseError Expression × Nat)
  | 0, _, _, _ => none
  | fuel + 1, expr, tokens, current =>
    match match_token_types [.Or] tokens current with
    | (.error e, c1) => some (.error e, c1)
    | (.ok true, c1) =>
      match previous tokens c1 with
      | .error e => some (.error e, c1)
      | .ok operator =>
        match andP fuel tokens c1 with
        | none => none
        | some (.error e, c2) => some (.error e, c2)
        | some (.ok right, c2) => orLoop fuel (.Logical expr operator right) tokens c2
    | (.ok false, c1) => some (.ok expr, c1)

/-- `Parser::and`. -/
def andP : Nat → List Token → Nat → Option (Except ParseError Expression × Nat)
  | 0, _, _ => none
  | fuel + 1, tokens, current =>
    match equality fuel tokens current with
    | none => none
    | some (.error e, c1) => some (.error e, c1)
    | some (.ok expr, c1) => andLoop fuel expr tokens c1

/-- The while loop of `Parser::and`. -/
def andLoop : Nat → Expression → List Token → Nat → Option (Except ParseError Expression × Nat)
  | 0, _, _, _ => none
  | fuel + 1, expr, tokens, current =>
    match match_token_types [.And] tokens current with
    | (.error e, c1) => some (.error e, c1)
    | (.ok true, c1) =>
      match previous tokens c1 with
      | .error e => some (.error e, c1)
      | .ok operator =>
        match equality fuel tokens c1 with
        | none => none
        | some (.error e, c2) => some (.error e, c2)
        | some (.ok right, c2) => andLoop fuel (.Logical expr operator right) tokens c2
    | (.ok false, c1) => some (.ok expr, c1)

/-- `Parser::equality`. -/
def equality : Nat → List Token → Nat → Option (Except ParseError Expression × Nat)
  | 0, _, _ => none
  | fuel + 1, tokens, current =>
    match comparison fuel tokens current with
    | none => none
    | some (.error e, c1) => some (.error e, c1)
    | some (.ok expr, c1) => equalityLoop fuel expr tokens c1

/-- The while loop of `Parser::equality`. -/
def equalityLoop : Nat → Expression → List Token → Nat → Option (Except ParseError Expression × Nat)
  | 0, _, _, _ => none
  | fuel + 1, expr, tokens, current =>
    match match_token_types [.BangEqual, .EqualEqual] tokens current with
    | (.error e, c1) => some (.error e, c1)
    | (.ok true, c1) =>
      match previous tokens c1 with
      | .error e => some (.error e, c1)
      | .ok operator =>
        match comparison fuel tokens c1 with
        | none => none
        | some (.error e, c2) => some (.error e, c2)
        | some (.ok right, c2) => equalityLoop fuel (.Binary expr operator right) tokens c2
    | (.ok false, c1) => some (.ok expr, c1)

/-- `Parser::comparison`. -/
def comparison : Nat → List Token → Nat → Option (Except ParseError Expression × Nat)
  | 0, _, _ => none
  | fuel + 1, tokens, current =>
    match term fuel tokens current with
    | none => none
    | some (.error e, c1) => some (.error e, c1)
    | some (.ok expr, c1) => comparisonLoop fuel expr tokens c1

/-- The while loop of `Parser::comparison`. -/
def comparisonLoop : Nat → Expression → List Token → Nat → Option (Except ParseError Expression × Nat)
  | 0, _, _, _ => none
  | fuel + 1, expr, tokens, current =>
    match match_token_types [.Greater, .GreaterEqual, .Less, .LessEqual] tokens current with
    | (.error e, c1) => some (.error e, c1)
    | (.ok true, c1) =>
      match previous tokens c1 with
      | .error e => some (.error e, c1)
      | .ok operator =>
        match term fuel tokens c1 with
        | none => none
        | some (.error e, c2) => some (.error e, c2)
        | some (.ok right, c2) => comparisonLoop fuel (.Binary expr operator right) tokens c2
    | (.ok false, c1) => some (.ok expr, c1)

/-- `Parser::term`. -/
def term : Nat → List Token → Nat → Option (Except ParseError Expression × Nat)
  | 0, _, _ => none
  | fuel + 1, tokens, current =>
    match factor fuel tokens current with
    | none => none
    | some (.error e, c1) => some (.error e, c1)
    | some (.ok expr, c1) => termLoop fuel expr tokens c1

/-- The while loop of `Parser::term`. -/
def termLoop : Nat → Expression → List Token → Nat → Option (Except ParseError Expression × Nat)
  | 0, _, _, _ => none
  | fuel + 1, expr, tokens, current =>
    match match_token_types [.Minus, .Plus] tokens current with
    | (.error e, c1) => some (.error e, c1)
    | (.ok true, c1) =>
      match previous tokens c1 with
      | .error e => some (.error e, c1)
      | .ok operator =>
        match factor fuel tokens c1 with
        | none => none
        | some (.error e, c2) => some (.error e, c2)
        | some (.ok right, c2) => termLoop fuel (.Binary expr operator right) tokens c2
    | (.ok false, c1) => some (.ok expr, c1)

/-- `Parser::factor`. -/
def factor : Nat → List Token → Nat → Option (Except ParseError Expression × Nat)
  | 0, _, _ => none
  | fuel + 1, tokens, current =>
    match unary fuel tokens current with
    | none => none
    | some (.error e, c1) => some (.error e, c1)
    | some (.ok expr, c1) => factorLoop fuel expr tokens c1

/-- The while loop of `Parser::factor`. -/
def factorLoop : Nat → Expression → List Token → Nat → Option (Except ParseError Expression × Nat)
  | 0, _, _, _ => none
  | fuel + 1, expr, tokens, current =>
    match match_token_types [.Slash, .Star] tokens current with
    | (.error e, c1) => some (.error e, c1)
    | (.ok true, c1) =>
      match previous tokens c1 with
      | .error e => some (.error e, c1)
      | .ok operator =>
        match unary fuel tokens c1 with
        | none => none
        | some (.error e, c2) => some (.error e, c2)
        | some (.ok right, c2) => factorLoop fuel (.Binary expr operator right) tokens c2
    | (.ok false, c1) => some (.ok expr, c1)

/-- `Parser::unary`. -/
def unary : Nat → List Token → Nat → Option (Except ParseError Expression × Nat)
  | 0, _, _ => none
  | fuel + 1, tokens, current =>
    match match_token_types [.Bang, .Minus] tokens current with
    | (.error e, c1) => some (.error e, c1)
    | (.ok true, c1) =>
      match previous tokens c1 with
      | .error e => some (.error e, c1)
      | .ok operator =>
        match unary fuel tokens c1 with
        | none => none
        | some (.error e, c2) => some (.error e, c2)
        | some (.ok right, c2) => some (.ok (.Unary operator right), c2)
    | (.ok false, c1) => primary fuel tokens c1

/-- `Parser::primary`. -/
def primary : Nat → List Token → Nat → Option (Except ParseError Expression × Nat)
  | 0, _, _ => none
  | fuel + 1, tokens, current =>
    match match_token_types [.False] tokens current with
    | (.error e, c1) => some (.error e, c1)
    | (.ok true, c1) => some (.ok (.Literal (.Bool false)), c1)
    | (.ok false, c1) =>
      match match_token_types [.True] tokens c1 with
      | (.error e, c2) => some (.error e, c2)
      | (.ok true, c2) => some (.ok (.Literal (.Bool true)), c2)
      | (.ok false, c2) =>
        match match_token_types [.Nil] tokens c2 with
        | (.error e, c3) => some (.error e, c3)
        | (.ok true, c3) => some (.ok (.Literal .Nil), c3)
        | (.ok false, c3) =>
          match match_token_types [.String, .Number] tokens c3 with
          | (.error e, c4) => some (.error e, c4)
          | (.ok true, c4) =>
            match previous tokens c4 with
            | .error e => some (.error e, c4)
            | .ok prev =>
              match prev.literal with
              | some v => some (.ok (.Literal v), c4)
              | none =>
                match peek tokens c4 with
                | .error e => some (.error e, c4)
                | .ok pk => some (.error (.NoLiteralOnToken pk.line), c4)
          | (.ok false, c4) =>
            match match_token_types [.Identifier] tokens c4 with
            | (.error e, c5) => some (.error e, c5)
            | (.ok true, c5) =>
              match previous tokens c5 with
              | .error e => some (.error e, c5)
              | .ok name => some (.ok (.Variable name), c5)
            | (.ok false, c5) =>
              match match_token_types [.LeftParen] tokens c5 with
              | (.error e, c6) => some (.error e, c6)
              | (.ok true, c6) =>
                match expression fuel tokens c6 with
                | none => none
                | some (.error e, c7) => some (.error e, c7)
                | some (.ok expr, c7) =>
                  match previous tokens c7 with
                  | .error e => some (.error e, c7)
                  | .ok prev =>
                    match consume .RightParen (.UnterminatedGrouping prev.line) tokens c7 with
                    | (.error e, c8) => some (.error e, c8)
                    | (.ok _, c8) => some (.ok (.Grouping expr), c8)
              | (.ok false, c6) =>
                match previous tokens c6 with
                | .error e => some (.error e, c6)
                | .ok prev => some (.error (.ExpectedExpression prev.line), c6)

end

mutual

/-- `Parser::declaration`. -/
def declaration : Nat → List Token → Nat → Option (Except ParseError Statement × Nat)
  | 0, _, _ => none
  | fuel + 1, tokens, current =>
    match match_token_types [.Var] tokens current with
    | (.error e, c1) => some (.error e, c1)
    | (.ok true, c1) => var_declaration fuel tokens c1
    | (.ok false, c1) => statement fuel tokens c1

/-- `Parser::var_declaration`. -/
def var_declaration : Nat → List Token → Nat → Option (Except ParseError Statement × Nat)
  | 0, _, _ => none
  | fuel + 1, tokens, current =>
    match previous tokens current with
    | .error e => some (.error e, current)
    | .ok prev =>
      match consume .Identifier (.ExpectedIdentifier prev.line) tokens current with
      | (.error e, c1) => some (.error e, c1)
      | (.ok name, c1) =>
        match match_token_types [.Equal] tokens c1 with
        | (.error e, c2) => some (.error e, c2)
        | (.ok true, c2) =>
          match expression fuel tokens c2 with
          | none => none
          | some (.error e, c3) => some (.error e, c3)
          | some (.ok init, c3) =>
            match consume .Semicolon (.UnterminatedVarDeclaration name.line) tokens c3 with
            | (.error e, c4) => some (.error e, c4)
            | (.ok _, c4) => some (.ok (.Var name (some init)), c4)
        | (.ok false, c2) =>
          match consume .Semicolon (.UnterminatedVarDeclaration name.line) tokens c2 with
          | (.error e, c3) => some (.error e, c3)
          | (.ok _, c3) => some (.ok (.Var name none), c3)

/-- `Parser::statement`. -/
def statement : Nat → List Token → Nat → Option (Except ParseError Statement × Nat)
  | 0, _, _ => none
  | fuel + 1, tokens, current =>
    match match_token_types [.Print] tokens current with
    | (.error e, c1) => some (.error e, c1)
    | (.ok true, c1) => print_statement fuel tokens c1
    | (.ok false, c1) =>
      match match_token_types [.While] tokens c1 with
      | (.error e, c2) => some (.error e, c2)
      | (.ok true, c2) => while_statement fuel tokens c2
      | (.ok false, c2) =>
        match match_token_types [.For] tokens c2 with
        | (.error e, c3) => some (.error e, c3)
        | (.ok true, c3) => for_statement fuel tokens c3
        | (.ok false, c3) =>
          match match_token_types [.LeftBrace] tokens c3 with
          | (.error e, c4) => some (.error e, c4)
          | (.ok true, c4) =>
            match block fuel tokens c4 with
            | none => none
            | some (.error e, c5) => some (.error e, c5)
            | some (.ok stmts, c5) => some (.ok (.Block stmts), c5)
          | (.ok false, c4) =>
            match match_token_types [.If] tokens c4 with
            | (.error e, c5) => some (.error e, c5)
            | (.ok true, c5) => if_statement fuel tokens c5
            | (.ok false, c5) => expression_statement fuel tokens c5

/-- `Parser::if_statement`. -/
def if_statement : Nat → List Token → Nat → Option (Except ParseError Statement × Nat)
  | 0, _, _ => none
  | fuel + 1, tokens, current =>
    match previous tokens current with
    | .error e => some (.error e, current)
    | .ok prev =>
      match consume .LeftParen (.ExprectedLeftParen prev.line) tokens current with
      | (.error e, c1) => some (.error e, c1)
      | (.ok _, c1) =>
        match expression fuel tokens c1 with
        | none => none
        | some (.error e, c2) => some (.error e, c2)
        | some (.ok condition, c2) =>
          match previous tokens c2 with
          | .error e => some (.error e, c2)
          | .ok prev2 =>
            match consume .RightParen (.ExpectedRightParen prev2.line) tokens c2 with
            | (.error e, c3) => some (.error e, c3)
            | (.ok _, c3) =>
              match statement fuel tokens c3 with
              | none => none
              | some (.error e, c4) => some (.error e, c4)
              | some (.ok then_branch, c4) =>
                match match_token_types [.Else] tokens c4 with
                | (.error e, c5) => some (.error e, c5)
                | (.ok true, c5) =>
                  match statement fuel tokens c5 with
                  | none => none
                  | some (.error e, c6) => some (.error e, c6)
                  | some (.ok else_branch, c6) =>
                    some (.ok (.If condition then_branch (some else_branch)), c6)
                | (.ok false, c5) => some (.ok (.If condition then_branch none), c5)

/-- `Parser::print_statement`. -/
def print_statement : Nat → List Token → Nat → Option (Except ParseError Statement × Nat)
  | 0, _, _ => none
  | fuel + 1, tokens, current =>
    match expression fuel tokens current with
    | none => none
    | some (.error e, c1) => some (.error e, c1)
    | some (.ok expr, c1) =>
      match previous tokens c1 with
      | .error e => some (.error e, c1)
      | .ok prev =>
        match consume .Semicolon (.UnterminatedPrintStatement prev.line) tokens c1 with
        | (.error e, c2) => some (.error e, c2)
        | (.ok _, c2) => some (.ok (.Print expr), c2)

/-- `Parser::expression_statement`. -/
def expression_statement : Nat → List Token → Nat → Option (Except ParseError Statement × Nat)
  | 0, _, _ => none
  | fuel + 1, tokens, current =>
    match expression fuel tokens current with
    | none => none
    | some (.error e, c1) => some (.error e, c1)
    | some (.ok expr, c1) =>
      match previous tokens c1 with
      | .error e => some (.error e, c1)
      | .ok prev =>
        match consume .Semicolon (.UnterminatedExpressionStatement prev.line) tokens c1 with
        | (.error e, c2) => some (.error e, c2)
        | (.ok _, c2) => some (.ok (.Expression expr), c2)

/-- The while loop of `Parser::block` plus the closing consume. -/
def blockLoop : Nat → List Statement → List Token → Nat → Option (Except ParseError (List Statement) × Nat)
  | 0, _, _, _ => none
  | fuel + 1, stmts, tokens, current =>
    match check .RightBrace tokens current with
    | .error e => some (.error e, current)
    | .ok c =>
      if !c ∧ !(is_at_end tokens current) then
        match declaration fuel tokens current with
        | none => none
        | some (.error e, c1) => some (.error e, c1)
        | some (.ok s, c1) => blockLoop fuel (stmts ++ [s]) tokens c1
      else
        match previous tokens current with
        | .error e => some (.error e, current)
        | .ok prev =>
          match consume .RightBrace (.UnterminatedBlock prev.line) tokens current with
          | (.error e, c1) => some (.error e, c1)
          | (.ok _, c1) => some (.ok stmts, c1)

/-- `Parser::block`. -/
def block : Nat → List Token → Nat → Option (Except ParseError (List Statement) × Nat)
  | 0, _, _ => none
  | fuel + 1, tokens, current => blockLoop fuel [] tokens current

/-- `Parser::while_statement`. -/
def while_statement : Nat → List Token → Nat → Option (Except ParseError Statement × Nat)
  | 0, _, _ => none
  | fuel + 1, tokens, current =>
    match previous tokens current with
    | .error e => some (.error e, current)
    | .ok prev =>
      match consume .LeftParen (.ExprectedLeftParen prev.line) tokens current with
      | (.error e, c1) => some (.error e, c1)
      | (.ok _, c1) =>
        match expression fuel tokens c1 with
        | none => none
        | some (.error e, c2) => some (.error e, c2)
        | some (.ok condition, c2) =>
          match previous tokens c2 with
          | .error e => some (.error e, c2)
          | .ok prev2 =>
            match consume .RightParen (.ExpectedRightParen prev2.line) tokens c2 with
            | (.error e, c3) => some (.error e, c3)
            | (.ok _, c3) =>
              match statement fuel tokens c3 with
              | none => none
              | some (.error e, c4) => some (.error e, c4)
              | some (.ok body, c4) => some (.ok (.While condition body), c4)

/-- `Parser::for_statement`: parses the header and body, then desugars
into `Block`/`While` nodes exactly as the source does: the increment is
appended to the body in a `Block`, the result is wrapped in a `While`
with the condition (a missing condition becomes the literal `true`), and
the initializer, when present, is prepended in an outer `Block`. -/
def for_statement : Nat → List Token → Nat → Option (Except ParseError Statement × Nat)
  | 0, _, _ => none
  | fuel + 1, tokens, current =>
    match previous tokens current with
    | .error e => some (.error e, current)
    | .ok prev =>
      match consume .LeftParen (.ExprectedLeftParen prev.line) tokens current with
      | (.error e, c1) => some (.error e, c1)
      | (.ok _, c1) =>
        -- initializer: `;` → none, `var` → var_declaration, else expression_statement
        match (match match_token_types [.Semicolon] tokens c1 with
          | (.error e, c2) => some ((.error e : Except ParseError (Option Statement)), c2)
          | (.ok true, c2) => some (.ok none, c2)
          | (.ok false, c2) =>
            match match_token_types [.Var] tokens c2 with
            | (.error e, c3) => some (.error e, c3)
            | (.ok true, c3) =>
              match var_declaration fuel tokens c3 with
              | none => none
              | some (.error e, c4) => some (.error e, c4)
              | some (.ok s, c4) => some (.ok (some s), c4)
            | (.ok false, c3) =>
              match expression_statement fuel tokens c3 with
              | none => none
              | some (.error e, c4) => some (.error e, c4)
              | some (.ok s, c4) => some (.ok (some s), c4)) with
        | none => none
        | some (.error e, c2) => some (.error e, c2)
        | some (.ok initializer, c2) =>
          -- condition: absent (next token is `;`) → literal true
          match (match check .Semicolon tokens c2 with
            | .error e => some ((.error e : Except ParseError Expression), c2)
            | .ok false => expression fuel tokens c2
            | .ok true => some (.ok (.Literal (.Bool true)), c2)) with
          | none => none
          | some (.error e, c3) => some (.error e, c3)
          | some (.ok condition, c3) =>
            match previous tokens c3 with
            | .error e => some (.error e, c3)
            | .ok prev2 =>
              match consume .Semicolon (.ExpectedSemicolon prev2.line) tokens c3 with
              | (.error e, c4) => some (.error e, c4)
              | (.ok _, c4) =>
                -- increment: absent when the next token is `)`
                match (match check .RightParen tokens c4 with
                  | .error e => some ((.error e : Except ParseError (Option Expression)), c4)
                  | .ok false =>
                    match expression fuel tokens c4 with
                    | none => none
                    | some (.error e, c5) => some (.error e, c5)
                    | some (.ok incr, c5) => some (.ok (some incr), c5)
                  | .ok true => some (.ok none, c4)) with
                | none => none
                | some (.error e, c5) => some (.error e, c5)
                | some (.ok increment, c5) =>
                  match previous tokens c5 with
                  | .error e => some (.error e, c5)
                  | .ok prev3 =>
                    match consume .RightParen (.ExpectedRightParen prev3.line) tokens c5 with
                    | (.error e, c6) => some (.error e, c6)
                    | (.ok _, c6) =>
                      match statement fuel tokens c6 with
                      | none => none
                      | some (.error e, c7) => some (.error e, c7)
                      | some (.ok body, c7) =>
                        let body1 :=
                          match increment with
                          | some expr => Statement.Block [body, Statement.Expression expr]
                          | none => body
                        let body2 := Statement.While condition body1
                        match initializer with
                        | some stmt => some (.ok (Statement.Block [stmt, body2]), c7)
                        | none => some (.ok body2, c7)

end

/-- The while loop of `parse`: statements are collected; a failed
declaration is reported (collected in `errs`) and recovered from via
`synchronize`, whose own failure propagates. -/
def parseLoop : Nat → List Token → Nat → List ParseError → List Statement →
    Option (List ParseError × Except ParseError (List Statement))
  | 0, _, _, _, _ => none
  | fuel + 1, tokens, current, errs, stmts =>
    if is_at_end tokens current then
      some (errs, if errs.isEmpty then .ok stmts else .error .HadError)
    else
      match declaration fuel tokens current with
      | none => none
      | some (.ok s, c') => parseLoop fuel tokens c' errs (stmts ++ [s])
      | some (.error e, c') =>
        match synchronize fuel tokens c' with
        | none => none
        | some (.ok _, c'') => parseLoop fuel tokens c'' (errs ++ [e]) stmts
        | some (.error e2, _) => some (errs ++ [e], .error e2)

end Parser

/-- `parse` (public entry of `src/parser.rs`): returns the list of
reported parse errors next to the result. -/
def parse (fuel : Nat) (tokens : List Token) : Option (List ParseError × Except ParseError (List Statement)) :=
  Parser.parseLoop fuel tokens 0 [] []

/-- Run `Parser::expression` on a token sequence from index 0 and keep
the parsed tree (helper for expression-level claims). -/
def parseExpression (fuel : Nat) (tokens : List Token) : Option (Except ParseError Expression) :=
  (Parser.expression fuel tokens 0).map (·.1)


/-! ### Environment, from `src/obj/environment.rs`.

`Rc<RefCell<Environment>>` cells live in an arena (`heap`); an
environment handle is an index into it.  The `HashMap<String, Value>` is
an association list with at most one entry per key (`hmInsert`
overwrites in place). -/

/-- One `Environment` record, from `struct Environment`: a value map
plus an optional handle to the enclosing scope. -/
structure Environment where
  values : List (String × Value)
  enclosing : Option Nat
deriving DecidableEq, Repr

/-- `HashMap::insert`: overwrite the existing entry or append. -/
def hmInsert : List (String × Value) → String → Value → List (String × Value)
  | [], k, v => [(k, v)]
  | (k', v') :: rest, k, v =>
    if k' = k then (k, v) :: rest else (k', v') :: hmInsert rest k v

/-- `HashMap::get`. -/
def hmGet : List (String × Value) → String → Option Value
  | [], _ => none
  | (k', v') :: rest, k => if k' = k then some v' else hmGet rest k

/-- `HashMap::contains_key`. -/
def hmContains (m : List (String × Value)) (k : String) : Bool :=
  (hmGet m k).isSome

/-- `Environment::get`: search the scope at `addr`, then walk the
enclosing chain.  Fuelled because the chain is a heap walk; callers pass
more fuel than the heap has cells, which suffices for the acyclic chains
the interpreter builds (a dangling handle, impossible for `Rc`, is also
`none`). -/
def envGet : Nat → List Environment → Nat → String → Option (Except RuntimeError Value)
  | 0, _, _, _ => none
  | fuel + 1, heap, addr, name =>
    match heap.get? addr with
    | none => none
    | some env =>
      match hmGet env.values name with
      | some v => some (.ok v)
      | none =>
        match env.enclosing with
        | some encl => envGet fuel heap encl name
        | none => some (.error .UndefinedVariable)

/-- `Environment::assign`: mutate the first scope in the chain that
already owns the name; fail without touching the heap if none does. -/
def envAssign : Nat → List Environment → Nat → String → Value → Option (Except RuntimeError (List Environment))
  | 0, _, _, _, _ => none
  | fuel + 1, heap, addr, name, v =>
    match heap.get? addr with
    | none => none
    | some env =>
      if hmContains env.values name then
        some (.ok (heap.set addr { env with values := hmInsert env.values name v }))
      else
        match env.enclosing with
        | some encl => envAssign fuel heap encl name v
        | none => some (.error .UndefinedVariable)

/-- `Environment::define` as the interpreter uses it (`define_inner` on
the current cell): always succeeds, overwriting only within the scope at
`addr`. -/
def envDefine (heap : List Environment) (addr : Nat) (name : String) (v : Value) : List Environment :=
  match heap.get? addr with
  | none => heap
  | some env => heap.set addr { env with values := hmInsert env.values name v }

/-! ### Interpreter, from `src/interpreter.rs`. -/

/-- Interpreter state: the arena of environment cells, the handle held
in `Interpreter::environment`, and the list of values printed by
`Statement::Print` (the `println!` effect). -/
structure InterpState where
  heap : List Environment
  env : Nat
  output : List Value
deriving DecidableEq, Repr

/-- `is_truthy` (free function in `src/interpreter.rs`). -/
def is_truthy (value : Value) : Bool :=
  !(value == .Nil || value == .Bool false)

/-- `is_equal` (free function in `src/interpreter.rs`). -/
def is_equal (first second : Value) : Bool :=
  if first == .Nil && second == .Nil then true
  else if first == .Nil then false
  else first == second

/-- `get_number_operand` (free function in `src/interpreter.rs`). -/
def get_number_operand : Value → Except RuntimeError Frac
  | .Number num => .ok num
  | _ => .error .NumberOperand

mutual

/-- `Interpreter::execute_statement`.  The `While` variant has no arm in
the source's `match` (the snapshot's `interpreter.rs` is non-exhaustive
over `obj/statement.rs`'s `Statement`), so the model gives no result for
it; no claim executes a `While`. -/
def execute_statement : Nat → Statement → InterpState → Option (Except RuntimeError Unit × InterpState)
  | 0, _, _ => none
  | fuel + 1, stmt, st =>
    match stmt with
    | .Block stmts =>
      -- let prev_env = self.environment.clone(); (an Rc handle copy)
      let prev_env := st.env
      -- self.environment = Environment::new_enclosed(prev_env.clone());
      let entered : InterpState :=
        { st with heap := st.heap ++ [⟨[], some prev_env⟩], env := st.heap.length }
      -- the closure: run the nested statements, keeping the error as a value;
      -- then restore the previous environment; then propagate (`result?`)
      match execute_statements fuel stmts entered with
      | none => none
      | some (result, st') => some (result, { st' with env := prev_env })
    | .Expression expr =>
      match evaluate_expression fuel expr st with
      | none => none
      | some (.error e, st') => some (.error e, st')
      | some (.ok _, st') => some (.ok (), st')
    | .If cond thenB elseB =>
      match evaluate_expression fuel cond st with
      | none => none
      | some (.error e, st') => some (.error e, st')
      | some (.ok v, st') =>
        if is_truthy v then execute_statement fuel thenB st'
        else
          match elseB with
          | some stmt' => execute_statement fuel stmt' st'
          | none => some (.ok (), st')
    | .Print expr =>
      match evaluate_expression fuel expr st with
      | none => none
      | some (.error e, st') => some (.error e, st')
      | some (.ok value, st') => some (.ok (), { st' with output := st'.output ++ [value] })
    | .Var name init =>
      match (match init with
        | some expr => evaluate_expression fuel expr st
        | none => some (.ok Value.Nil, st)) with
      | none => none
      | some (.error e, st') => some (.error e, st')
      | some (.ok value, st') =>
        some (.ok (), { st' with heap := envDefine st'.heap st'.env name.lexeme value })
    | .While _ _ => none

/-- The statement sequencing shared by `Interpreter::interpret` and the
`Block` closure: execute in order, first error aborts the rest. -/
def execute_statements : Nat → List Statement → InterpState → Option (Except RuntimeError Unit × InterpState)
  | 0, _, _ => none
  | _ + 1, [], st => some (.ok (), st)
  | fuel + 1, stmt :: rest, st =>
    match execute_statement fuel stmt st with
    | none => none
    | some (.error e, st') => some (.error e, st')
    | some (.ok _, st') => execute_statements fuel rest st'

/-- `Interpreter::evaluate_expression`. -/
def evaluate_expression : Nat → Expression → InterpState → Option (Except RuntimeError Value × InterpState)
  | 0, _, _ => none
  | fuel + 1, expr, st =>
    match expr with
    | .Assign name e =>
      match evaluate_expression fuel e st with
      | none => none
      | some (.error err, st') => some (.error err, st')
      | some (.ok value, st') =>
        -- self.environment.assign(name.clone(), value.clone())?;
        match envAssign (st'.heap.length + 1) st'.heap st'.env name.lexeme value with
        | none => none
        | some (.error err) => some (.error err, st')
        | some (.ok heap') => some (.ok value, { st' with heap := heap' })
    | .Binary left operator right => handle_binary fuel left operator right st
    | .Grouping e => evaluate_expression fuel e st
    | .Literal val => some (.ok val, st)
    | .Logical left operator right =>
      match evaluate_expression fuel left st with
      | none => none
      | some (.error err, st') => some (.error err, st')
      | some (.ok left_val, st') =>
        if operator.token_type == .Or then
          if is_truthy left_val then some (.ok left_val, st')
          else evaluate_expression fuel right st'
        else
          if !is_truthy left_val then some (.ok left_val, st')
          else evaluate_expression fuel right st'
    | .Unary operator right => handle_unary fuel operator right st
    | .Variable name =>
      match envGet (st.heap.length + 1) st.heap st.env name.lexeme with
      | none => none
      | some (.error err) => some (.error err, st)
      | some (.ok v) => some (.ok v, st)

/-- `Interpreter::handle_binary`.  Arithmetic and comparisons are on
`Frac` (exact for every value the claims exercise; see the header
comment for the `f64` divergences this abstracts). -/
def handle_binary : Nat → Expression → Token → Expression → InterpState → Option (Except RuntimeError Value × InterpState)
  | 0, _, _, _, _ => none
  | fuel + 1, left, operator, right, st =>
    match evaluate_expression fuel left st with
    | none => none
    | some (.error e, st1) => some (.error e, st1)
    | some (.ok left_val, st1) =>
      match evaluate_expression fuel right st1 with
      | none => none
      | some (.error e, st2) => some (.error e, st2)
      | some (.ok right_val, st2) =>
        match operator.token_type with
        | .Minus =>
          match get_number_operand left_val, get_number_operand right_val with
          | .error e, _ => some (.error e, st2)
          | .ok _, .error e => some (.error e, st2)
          | .ok a, .ok b => some (.ok (.Number (a.sub b)), st2)
        | .Slash =>
          match get_number_operand left_val, get_number_operand right_val with
          | .error e, _ => some (.error e, st2)
          | .ok _, .error e => some (.error e, st2)
          | .ok a, .ok b => some (.ok (.Number (a.div b)), st2)
        | .Star =>
          match get_number_operand left_val, get_number_operand right_val with
          | .error e, _ => some (.error e, st2)
          | .ok _, .error e => some (.error e, st2)
          | .ok a, .ok b => some (.ok (.Number (a.mul b)), st2)
        | .Plus =>
          match left_val, right_val with
          | .Number left_num, .Number right_num => some (.ok (.Number (left_num.add right_num)), st2)
          | .String left_str, .String right_str => some (.ok (.String (left_str ++ right_str)), st2)
          | _, _ => some (.error .IncompatibleTypes, st2)
        | .Greater =>
          match get_number_operand left_val, get_number_operand right_val with
          | .error e, _ => some (.error e, st2)
          | .ok _, .error e => some (.error e, st2)
          | .ok a, .ok b => some (.ok (.Bool (b.blt a)), st2)
        | .GreaterEqual =>
          match get_number_operand left_val, get_number_operand right_val with
          | .error e, _ => some (.error e, st2)
          | .ok _, .error e => some (.error e, st2)
          | .ok a, .ok b => some (.ok (.Bool (b.ble a)), st2)
        | .Less =>
          match get_number_operand left_val, get_number_operand right_val with
          | .error e, _ => some (.error e, st2)
          | .ok _, .error e => some (.error e, st2)
          | .ok a, .ok b => some (.ok (.Bool (a.blt b)), st2)
        | .LessEqual =>
          match get_number_operand left_val, get_number_operand right_val with
          | .error e, _ => some (.error e, st2)
          | .ok _, .error e => some (.error e, st2)
          | .ok a, .ok b => some (.ok (.Bool (a.ble b)), st2)
        | .BangEqual => some (.ok (.Bool (!is_equal left_val right_val)), st2)
        | .EqualEqual => some (.ok (.Bool (is_equal left_val right_val)), st2)
        | _ => some (.error .Unknown, st2)

/-- `Interpreter::handle_unary`. -/
def handle_unary : Nat → Token → Expression → InterpState → Option (Except RuntimeError Value × InterpState)
  | 0, _, _, _ => none
  | fuel + 1, operator, right, st =>
    match evaluate_expression fuel right st with
    | none => none
    | some (.error e, st1) => some (.error e, st1)
    | some (.ok right_val, st1) =>
      match operator.token_type with
      | .Minus =>
        match get_number_operand right_val with
        | .error e => some (.error e, st1)
        | .ok n => some (.ok (.Number n.neg), st1)
      | .Bang => some (.ok (.Bool (!is_truthy right_val)), st1)
      | _ => some (.error .Unknown, st1)

end

/-- The interpreter state `Interpreter::new` starts from: a single
global environment with no enclosing scope, nothing printed yet. -/
def initState : InterpState := ⟨[⟨[], none⟩], 0, []⟩

/-- `interpret` (public entry of `src/interpreter.rs`). -/
def interpret (fuel : Nat) (statements : List Statement) : Option (Except RuntimeError Unit × InterpState) :=
  execute_statements fuel statements initState

/-! ### Display forms, from `src/value.rs` and `src/obj/expression.rs`. -/

/-- Rust's `{}` on `f64` prints the shortest decimal notation that
reads back to the same double: integral values print with no decimal
point (`1`, `-3`), fractional ones with the minimal number of fraction
digits (`0.5`, `45.67`).  On the model's exact fractions this is the
minimal-`k` decimal expansion `num·10^k / den` whenever some
`k ≤ den` makes that quotient exact (for a decimal-representable
fraction the minimal `k` is at most `log2 den < den`, so the bound
loses nothing).  Fractions with no finite decimal expansion — and the
`den = 0` results of a division by zero — lie outside the exact-decimal
abstraction of `Frac` (a binary `f64` would have rounded long before
display); the model shows those as `num/den`, and no claim exercises
them. -/
def displayNumber (n : Frac) : String :=
  match (List.range (n.den + 1)).find? (fun k => n.num.natAbs * 10 ^ k % n.den == 0) with
  | some 0 => toString (n.num / (n.den : Int))
  | some (k + 1) =>
    let m := n.num.natAbs * 10 ^ (k + 1) / n.den
    let ds := (toString m).toList
    let ds := List.replicate ((k + 2) - ds.length) '0' ++ ds
    (if n.num < 0 then "-" else "") ++
      String.mk (ds.take (ds.length - (k + 1))) ++ "." ++
      String.mk (ds.drop (ds.length - (k + 1)))
  | none => toString n.num ++ "/" ++ toString n.den

/-- `Display for Value`: strings, booleans and `nil` print their plain
forms, numbers print as `{}` on `f64` does (see `displayNumber`). -/
def displayValue : Value → String
  | .String s => s
  | .Number n => displayNumber n
  | .Bool b => if b then "true" else "false"
  | .Nil => "nil"

/-- `Display for Expression`: the recursive prefix (S-expression style)
printing of `src/obj/expression.rs`. -/
def Expression.display : Expression → String
  | .Binary left operator right =>
    "(" ++ operator.lexeme ++ " " ++ left.display ++ " " ++ right.display ++ ")"
  | .Grouping e => "(group " ++ e.display ++ ")"
  | .Literal val => displayValue val
  | .Unary op right => "(" ++ op.lexeme ++ " " ++ right.display ++ ")"
  | .Variable name => "(var " ++ name.lexeme ++ ")"
  | .Assign name e => "(= " ++ name.lexeme ++ " " ++ e.display ++ ")"
  | .Logical left op right =>
    "(logical " ++ left.display ++ " " ++ op.lexeme ++ " " ++ right.display ++ ")"

/-! ### Pipeline helpers used to state the claims. -/

/-- Scan a source string, then parse the token sequence (the report
lists and failures of both stages surface in the result). -/
def scanParse (fuel : Nat) (src : String) : Option (List ParseError × Except ParseError (List Statement)) :=
  match scan_tokens fuel src with
  | some (_, .ok toks) => parse fuel toks
  | _ => none

/-- Scan, parse and interpret a program; `some output` is the list of
printed values of a run with no scan/parse/runtime errors. -/
def runProgram (fuel : Nat) (src : String) : Option (List Value) :=
  match scan_tokens fuel src with
  | some ([], .ok toks) =>
    match parse fuel toks with
    | some ([], .ok stmts) =>
      match interpret fuel stmts with
      | some (.ok (), st) => some st.output
      | _ => none
    | _ => none
  | _ => none

/-- Scan a source string, parse it as a single expression, and evaluate
it against a fresh interpreter state, keeping the outcome. -/
def evalSource (fuel : Nat) (src : String) : Option (Except RuntimeError Value) :=
  match scan_tokens fuel src with
  | some ([], .ok toks) =>
    match parseExpression fuel toks with
    | some (.ok e) =>
      match evaluate_expression fuel e initState with
      | some (r, _) => some r
      | none => none
    | _ => none
  | _ => none

/-- Evaluate an expression against a fresh interpreter state, keeping
the value when evaluation succeeds. -/
def evalValue (fuel : Nat) (e : Expression) : Option Value :=
  match evaluate_expression fuel e initState with
  | some (.ok v, _) => some v
  | _ => none

/-- Feed an expression's `Display` form back through scanning, parsing
and evaluation (the round trip of the pretty-printer). -/
def displayRoundTripValue (fuel : Nat) (e : Expression) : Option Value :=
  match scan_tokens fuel e.display with
  | some (_, .ok toks) =>
    match parseExpression fuel toks with
    | some (.ok e') => evalValue fuel e'
    | _ => none
  | _ => none

/-- Desugared shape of a `for` statement as the specification describes
it (for comparison with `Parser::for_statement`): a `While` whose body
is the original body, extended by a trailing `Expression` statement in a
`Block` when an increment is present, wrapped in an outer `Block` with
the initializer when one is present. -/
def desugarForSpec (ini : Option Statement) (cond : Expression) (inc : Option Expression)
    (body : Statement) : Statement :=
  let body1 :=
    match inc with
    | some e => Statement.Block [body, Statement.Expression e]
    | none => body
  let w := Statement.While cond body1
  match ini with
  | some s => Statement.Block [s, w]
  | none => w

/-! ### Concrete programs and their stagewise artifacts, used by the
claims.  Each `...toks`/`...stmts`/`...expr` constant is the literal
result of the preceding pipeline stage (established by the theorems
below). -/

/-- C1 program: assignment inside a block, read after the block. -/
def c1src : String := "var x = 1; { x = 2; } print x;"

/-- Tokens of `c1src`. -/
def c1toks : List Token :=
  [⟨.Var, "var", none, 1⟩, ⟨.Identifier, "x", none, 1⟩, ⟨.Equal, "=", none, 1⟩,
   ⟨.Number, "1", some (.Number ⟨1, 1⟩), 1⟩, ⟨.Semicolon, ";", none, 1⟩,
   ⟨.LeftBrace, "\x7b", none, 1⟩, ⟨.Identifier, "x", none, 1⟩, ⟨.Equal, "=", none, 1⟩,
   ⟨.Number, "2", some (.Number ⟨2, 1⟩), 1⟩, ⟨.Semicolon, ";", none, 1⟩,
   ⟨.RightBrace, "\x7d", none, 1⟩, ⟨.Print, "print", none, 1⟩,
   ⟨.Identifier, "x", none, 1⟩, ⟨.Semicolon, ";", none, 1⟩, ⟨.Eof, "", none, 1⟩]

/-- Statements of `c1src`. -/
def c1stmts : List Statement :=
  [.Var ⟨.Identifier, "x", none, 1⟩ (some (.Literal (.Number ⟨1, 1⟩))),
   .Block [.Expression (.Assign ⟨.Identifier, "x", none, 1⟩ (.Literal (.Number ⟨2, 1⟩)))],
   .Print (.Variable ⟨.Identifier, "x", none, 1⟩)]

/-- C3 program 1: two malformed statements separated by `;`. -/
def c3src1 : String := "1 +; 2 +;"

/-- Tokens of `c3src1`. -/
def c3toks1 : List Token :=
  [⟨.Number, "1", some (.Number ⟨1, 1⟩), 1⟩, ⟨.Plus, "+", none, 1⟩, ⟨.Semicolon, ";", none, 1⟩,
   ⟨.Number, "2", some (.Number ⟨2, 1⟩), 1⟩, ⟨.Plus, "+", none, 1⟩, ⟨.Semicolon, ";", none, 1⟩,
   ⟨.Eof, "", none, 1⟩]

/-- C3 program 2: a malformed statement recovered at a keyword
boundary (`var`), after which a well-formed declaration parses. -/
def c3src2 : String := "1 + var x = 2;"

/-- Tokens of `c3src2`. -/
def c3toks2 : List Token :=
  [⟨.Number, "1", some (.Number ⟨1, 1⟩), 1⟩, ⟨.Plus, "+", none, 1⟩, ⟨.Var, "var", none, 1⟩,
   ⟨.Identifier, "x", none, 1⟩, ⟨.Equal, "=", none, 1⟩,
   ⟨.Number, "2", some (.Number ⟨2, 1⟩), 1⟩, ⟨.Semicolon, ";", none, 1⟩, ⟨.Eof, "", none, 1⟩]

/-- C4 program: a first token (`;`) that cannot begin an expression. -/
def c4src : String := ";"

/-- Tokens of `c4src`. -/
def c4toks : List Token := [⟨.Semicolon, ";", none, 1⟩, ⟨.Eof, "", none, 1⟩]

/-- C5 program 1: multiplicative binds tighter than additive. -/
def c5src1 : String := "1 + 2 * 3"

/-- Tokens of `c5src1`. -/
def c5toks1 : List Token :=
  [⟨.Number, "1", some (.Number ⟨1, 1⟩), 1⟩, ⟨.Plus, "+", none, 1⟩,
   ⟨.Number, "2", some (.Number ⟨2, 1⟩), 1⟩, ⟨.Star, "*", none, 1⟩,
   ⟨.Number, "3", some (.Number ⟨3, 1⟩), 1⟩, ⟨.Eof, "", none, 1⟩]

/-- Expression of `c5src1`. -/
def c5expr1 : Expression :=
  .Binary (.Literal (.Number ⟨1, 1⟩)) ⟨.Plus, "+", none, 1⟩
    (.Binary (.Literal (.Number ⟨2, 1⟩)) ⟨.Star, "*", none, 1⟩ (.Literal (.Number ⟨3, 1⟩)))

/-- C5 program 2: grouping overrides precedence. -/
def c5src2 : String := "(1 + 2) * 3"

/-- Tokens of `c5src2`. -/
def c5toks2 : List Token :=
  [⟨.LeftParen, "(", none, 1⟩, ⟨.Number, "1", some (.Number ⟨1, 1⟩), 1⟩,
   ⟨.Plus, "+", none, 1⟩, ⟨.Number, "2", some (.Number ⟨2, 1⟩), 1⟩,
   ⟨.RightParen, ")", none, 1⟩, ⟨.Star, "*", none, 1⟩,
   ⟨.Number, "3", some (.Number ⟨3, 1⟩), 1⟩, ⟨.Eof, "", none, 1⟩]

/-- Expression of `c5src2`. -/
def c5expr2 : Expression :=
  .Binary
    (.Grouping (.Binary (.Literal (.Number ⟨1, 1⟩)) ⟨.Plus, "+", none, 1⟩ (.Literal (.Number ⟨2, 1⟩))))
    ⟨.Star, "*", none, 1⟩ (.Literal (.Number ⟨3, 1⟩))

/-- C6 program 1: short-circuiting `and` whose right operand would fail. -/
def c6src1 : String := "false and undefinedVariable"

/-- Tokens of `c6src1`. -/
def c6toks1 : List Token :=
  [⟨.False, "false", some (.Bool false), 1⟩, ⟨.And, "and", none, 1⟩,
   ⟨.Identifier, "undefinedVariable", none, 1⟩, ⟨.Eof, "", none, 1⟩]

/-- Expression of `c6src1`. -/
def c6expr1 : Expression :=
  .Logical (.Literal (.Bool false)) ⟨.And, "and", none, 1⟩
    (.Variable ⟨.Identifier, "undefinedVariable", none, 1⟩)

/-- C6 program 2: short-circuiting `or` whose right operand would fail. -/
def c6src2 : String := "true or undefinedVariable"

/-- Tokens of `c6src2`. -/
def c6toks2 : List Token :=
  [⟨.True, "true", some (.Bool true), 1⟩, ⟨.Or, "or", none, 1⟩,
   ⟨.Identifier, "undefinedVariable", none, 1⟩, ⟨.Eof, "", none, 1⟩]

/-- Expression of `c6src2`. -/
def c6expr2 : Expression :=
  .Logical (.Literal (.Bool true)) ⟨.Or, "or", none, 1⟩
    (.Variable ⟨.Identifier, "undefinedVariable", none, 1⟩)

/-- C8 program 1: `for` with omitted condition and increment. -/
def c8src1 : String := "for (;;) print 1;"

/-- Tokens of `c8src1`. -/
def c8toks1 : List Token :=
  [⟨.For, "for", none, 1⟩, ⟨.LeftParen, "(", none, 1⟩, ⟨.Semicolon, ";", none, 1⟩,
   ⟨.Semicolon, ";", none, 1⟩, ⟨.RightParen, ")", none, 1⟩, ⟨.Print, "print", none, 1⟩,
   ⟨.Number, "1", some (.Number ⟨1, 1⟩), 1⟩, ⟨.Semicolon, ";", none, 1⟩, ⟨.Eof, "", none, 1⟩]

/-- Statements of `c8src1`: a bare `While true` with no `Block` and the
literal-`true` condition. -/
def c8stmts1 : List Statement :=
  [.While (.Literal (.Bool true)) (.Print (.Literal (.Number ⟨1, 1⟩)))]

/-- C8 program 2: `for` with initializer, condition and increment. -/
def c8src2 : String := "for (var i = 0; i < 1; i = i + 1) print i;"

/-- Tokens of `c8src2`. -/
def c8toks2 : List Token :=
  [⟨.For, "for", none, 1⟩, ⟨.LeftParen, "(", none, 1⟩, ⟨.Var, "var", none, 1⟩,
   ⟨.Identifier, "i", none, 1⟩, ⟨.Equal, "=", none, 1⟩,
   ⟨.Number, "0", some (.Number ⟨0, 1⟩), 1⟩, ⟨.Semicolon, ";", none, 1⟩,
   ⟨.Identifier, "i", none, 1⟩, ⟨.Less, "<", none, 1⟩,
   ⟨.Number, "1", some (.Number ⟨1, 1⟩), 1⟩, ⟨.Semicolon, ";", none, 1⟩,
   ⟨.Identifier, "i", none, 1⟩, ⟨.Equal, "=", none, 1⟩, ⟨.Identifier, "i", none, 1⟩,
   ⟨.Plus, "+", none, 1⟩, ⟨.Number, "1", some (.Number ⟨1, 1⟩), 1⟩,
   ⟨.RightParen, ")", none, 1⟩, ⟨.Print, "print", none, 1⟩,
   ⟨.Identifier, "i", none, 1⟩, ⟨.Semicolon, ";", none, 1⟩, ⟨.Eof, "", none, 1⟩]

/-- Statements of `c8src2`: the fully desugared `Block`/`While` tree. -/
def c8stmts2 : List Statement :=
  [.Block
    [.Var ⟨.Identifier, "i", none, 1⟩ (some (.Literal (.Number ⟨0, 1⟩))),
     .While
       (.Binary (.Variable ⟨.Identifier, "i", none, 1⟩) ⟨.Less, "<", none, 1⟩
         (.Literal (.Number ⟨1, 1⟩)))
       (.Block
         [.Print (.Variable ⟨.Identifier, "i", none, 1⟩),
          .Expression
            (.Assign ⟨.Identifier, "i", none, 1⟩
              (.Binary (.Variable ⟨.Identifier, "i", none, 1⟩) ⟨.Plus, "+", none, 1⟩
                (.Literal (.Number ⟨1, 1⟩))))])]]

/-- C9 program: a parsed binary expression whose display form is fed
back through the pipeline. -/
def c9src : String := "1 + 2;"

/-- Tokens of `c9src`. -/
def c9toks : List Token :=
  [⟨.Number, "1", some (.Number ⟨1, 1⟩), 1⟩, ⟨.Plus, "+", none, 1⟩,
   ⟨.Number, "2", some (.Number ⟨2, 1⟩), 1⟩, ⟨.Semicolon, ";", none, 1⟩, ⟨.Eof, "", none, 1⟩]

/-- The expression parsed from `c9src`. -/
def c9expr : Expression :=
  .Binary (.Literal (.Number ⟨1, 1⟩)) ⟨.Plus, "+", none, 1⟩ (.Literal (.Number ⟨2, 1⟩))

/-- Tokens of the display form `"(+ 1 2)"` of `c9expr`. -/
def c9toksRT : List Token :=
  [⟨.LeftParen, "(", none, 1⟩, ⟨.Plus, "+", none, 1⟩,
   ⟨.Number, "1", some (.Number ⟨1, 1⟩), 1⟩, ⟨.Number, "2", some (.Number ⟨2, 1⟩), 1⟩,
   ⟨.RightParen, ")", none, 1⟩, ⟨.Eof, "", none, 1⟩]

/-- C9 program whose expression is a parsed composite (unary negation)
that does round-trip through its display form. -/
def c9usrc : String := "-1;"

/-- Tokens of `c9usrc`. -/
def c9utoks : List Token :=
  [⟨.Minus, "-", none, 1⟩, ⟨.Number, "1", some (.Number ⟨1, 1⟩), 1⟩,
   ⟨.Semicolon, ";", none, 1⟩, ⟨.Eof, "", none, 1⟩]

/-- The expression parsed from `c9usrc`. -/
def c9uexpr : Expression :=
  .Unary ⟨.Minus, "-", none, 1⟩ (.Literal (.Number ⟨1, 1⟩))

/-- Tokens of the display form `"(- 1)"` of `c9uexpr`. -/
def c9utoksRT : List Token :=
  [⟨.LeftParen, "(", none, 1⟩, ⟨.Minus, "-", none, 1⟩,
   ⟨.Number, "1", some (.Number ⟨1, 1⟩), 1⟩, ⟨.RightParen, ")", none, 1⟩, ⟨.Eof, "", none, 1⟩]

/-- C9 program whose expression is a parsed fractional number literal
(display form `45.67`, as Rust prints the double). -/
def c9fsrc : String := "45.67;"

/-- Tokens of `c9fsrc`. -/
def c9ftoks : List Token :=
  [⟨.Number, "45.67", some (.Number ⟨4567, 100⟩), 1⟩, ⟨.Semicolon, ";", none, 1⟩,
   ⟨.Eof, "", none, 1⟩]

/-- The expression parsed from `c9fsrc`. -/
def c9fexpr : Expression := .Literal (.Number ⟨4567, 100⟩)

/-- Tokens of the display form `"45.67"` of `c9fexpr`. -/
def c9ftoksRT : List Token :=
  [⟨.Number, "45.67", some (.Number ⟨4567, 100⟩), 1⟩, ⟨.Eof, "", none, 1⟩]

/-- C10 program: chained assignment used inside a larger statement. -/
def c10src : String := "var a = 1; var b = 1; var c = 5; print a = b = c; print a;"

/-- Tokens of `c10src`. -/
def c10toks : List Token :=
  [⟨.Var, "var", none, 1⟩, ⟨.Identifier, "a", none, 1⟩, ⟨.Equal, "=", none, 1⟩,
   ⟨.Number, "1", some (.Number ⟨1, 1⟩), 1⟩, ⟨.Semicolon, ";", none, 1⟩,
   ⟨.Var, "var", none, 1⟩, ⟨.Identifier, "b", none, 1⟩, ⟨.Equal, "=", none, 1⟩,
   ⟨.Number, "1", some (.Number ⟨1, 1⟩), 1⟩, ⟨.Semicolon, ";", none, 1⟩,
   ⟨.Var, "var", none, 1⟩, ⟨.Identifier, "c", none, 1⟩, ⟨.Equal, "=", none, 1⟩,
   ⟨.Number, "5", some (.Number ⟨5, 1⟩), 1⟩, ⟨.Semicolon, ";", none, 1⟩,
   ⟨.Print, "print", none, 1⟩, ⟨.Identifier, "a", none, 1⟩, ⟨.Equal, "=", none, 1⟩,
   ⟨.Identifier, "b", none, 1⟩, ⟨.Equal, "=", none, 1⟩, ⟨.Identifier, "c", none, 1⟩,
   ⟨.Semicolon, ";", none, 1⟩, ⟨.Print, "print", none, 1⟩, ⟨.Identifier, "a", none, 1⟩,
   ⟨.Semicolon, ";", none, 1⟩, ⟨.Eof, "", none, 1⟩]

/-- Statements of `c10src`. -/
def c10stmts : List Statement :=
  [.Var ⟨.Identifier, "a", none, 1⟩ (some (.Literal (.Number ⟨1, 1⟩))),
   .Var ⟨.Identifier, "b", none, 1⟩ (some (.Literal (.Number ⟨1, 1⟩))),
   .Var ⟨.Identifier, "c", none, 1⟩ (some (.Literal (.Number ⟨5, 1⟩))),
   .Print
     (.Assign ⟨.Identifier, "a", none, 1⟩
       (.Assign ⟨.Identifier, "b", none, 1⟩ (.Variable ⟨.Identifier, "c", none, 1⟩))),
   .Print (.Variable ⟨.Identifier, "a", none, 1⟩)]

/-! ### Theorems -/

/-- Stage fact for C1: scanning `c1src` yields `c1toks` (no errors). -/
theorem c1_scan : scan_tokens 100 c1src = some ([], .ok c1toks) := by with_unfolding_all rfl

/-- Stage fact for C1: parsing `c1toks` yields `c1stmts` (no errors). -/
theorem c1_parse : parse 100 c1toks = some ([], .ok c1stmts) := by with_unfolding_all rfl

/-- Stage fact for C1: interpreting `c1stmts` prints `2`; the final
global scope maps `x` to `2` (the block's assignment mutated the outer
binding through the enclosing chain). -/
theorem c1_interp : interpret 100 c1stmts =
    some (.ok (), ⟨[⟨[("x", .Number ⟨2, 1⟩)], none⟩, ⟨[], some 0⟩], 0, [.Number ⟨2, 1⟩]⟩) := by
  with_unfolding_all rfl

/-- C1: running `var x = 1; { x = 2; } print x;` prints `2` — the
assignment inside the block mutates the binding of the enclosing scope
and the mutation is visible after the block exits. -/
theorem C1_assignment_in_block_mutates_outer_scope :
    runProgram 100 c1src = some [Value.Number ⟨2, 1⟩] := by
  simp only [runProgram, c1_scan, c1_parse, c1_interp]

/-- C2: executing a `Block` creates a new `Environment` enclosed by the
current one, executes the nested statements against it, and restores
the previous environment handle as the active one on exit — for every
outcome `r`, including a runtime error, before that outcome
propagates. -/
theorem C2_block_restores_environment (fuel : Nat) (stmts : List Statement)
    (st : InterpState) (r : Except RuntimeError Unit) (st' : InterpState)
    (h : execute_statement (fuel + 1) (.Block stmts) st = some (r, st')) :
    st'.env = st.env ∧
    ∃ stMid,
      execute_statements fuel stmts
        { st with heap := st.heap ++ [⟨[], some st.env⟩], env := st.heap.length } = some (r, stMid) ∧
      st' = { stMid with env := st.env } := by
  simp only [execute_statement] at h
  split at h
  · exact absurd h (by simp)
  · rename_i result stMid hx
    simp only [Option.some.injEq, Prod.mk.injEq] at h
    obtain ⟨hr, hst⟩ := h
    subst hr
    subst hst
    exact ⟨rfl, stMid, hx, rfl⟩

/-- Witness for C2 at a concrete input: a block whose only statement
fails with `UndefinedVariable`; the environment handle is restored to
the global scope before the error propagates. -/
theorem C2_block_restores_environment_witness :
    (execute_statement 50 (.Block [.Expression (.Variable ⟨.Identifier, "q", none, 1⟩)]) initState =
      some (.error .UndefinedVariable, ⟨[⟨[], none⟩, ⟨[], some 0⟩], 0, []⟩)) ∧
    ((⟨[⟨[], none⟩, ⟨[], some 0⟩], 0, []⟩ : InterpState).env = initState.env ∧
      ∃ stMid,
        execute_statements 49 [.Expression (.Variable ⟨.Identifier, "q", none, 1⟩)]
          { initState with
            heap := initState.heap ++ [⟨[], some initState.env⟩],
            env := initState.heap.length } = some (.error .UndefinedVariable, stMid) ∧
        (⟨[⟨[], none⟩, ⟨[], some 0⟩], 0, []⟩ : InterpState) = { stMid with env := initState.env }) :=
  ⟨by with_unfolding_all rfl,
   C2_block_restores_environment 49 _ _ _ _ (by with_unfolding_all rfl)⟩

/-- Stage fact for C4: scanning `";"` yields `c4toks`. -/
theorem c4_scan : scan_tokens 50 c4src = some ([], .ok c4toks) := by with_unfolding_all rfl

/-- Stage fact for C4: on `c4toks` the expression parser reaches
`primary`'s expected-expression path with `current = 0` and `previous`'s
`usize` subtraction underflows, surfacing as `TokenAccessError 0`. -/
theorem c4_expr : Parser.expression 40 c4toks 0 = some (.error (.TokenAccessError 0), 0) := by
  with_unfolding_all rfl

/-- Stage fact for C4: `parse` on `c4toks` reports the
`TokenAccessError 0` and fails with the aggregate error. -/
theorem c4_parse : parse 50 c4toks = some ([.TokenAccessError 0], .error .HadError) := by
  with_unfolding_all rfl

/-- C4 (code bug): the internal index-out-of-range defect class is
reachable.  For the source `";"` — whose first token cannot begin an
expression — `primary` errors out via `previous()` at `current = 0`,
whose `usize` subtraction underflows, and the reported error is
`TokenAccessError 0` (a debug build panics at the subtraction). -/
theorem C4_token_access_defect_reachable :
    Parser.expression 40 c4toks 0 = some (.error (.TokenAccessError 0), 0) ∧
    scanParse 50 c4src = some ([.TokenAccessError 0], .error .HadError) := by
  refine ⟨c4_expr, ?_⟩
  simp only [scanParse, c4_scan, c4_parse]

/-- C7: for a Binary `+` whose operands evaluate to `v1` and `v2`, the
result is the numeric sum when both are `Number`s, the concatenation
when both are `String`s, and an `IncompatibleTypes` failure for every
other combination of value kinds (including mixed `Number`/`String`). -/
theorem C7_plus_operator_semantics (fuel : Nat) (l r : Expression) (opTok : Token)
    (st st1 st2 : InterpState) (v1 v2 : Value)
    (hop : opTok.token_type = .Plus)
    (hl : evaluate_expression fuel l st = some (.ok v1, st1))
    (hr : evaluate_expression fuel r st1 = some (.ok v2, st2)) :
    evaluate_expression (fuel + 2) (.Binary l opTok r) st =
      some ((match v1, v2 with
        | .Number a, .Number b => .ok (.Number (a.add b))
        | .String s1, .String s2 => .ok (.String (s1 ++ s2))
        | _, _ => .error .IncompatibleTypes), st2) := by
  show handle_binary (fuel + 1) l opTok r st = _
  simp only [handle_binary, hl, hr, hop]
  cases v1 <;> cases v2 <;> rfl

/-- Witness for C7 at concrete inputs: `1 + "a"` (a mixed pair) fails
with `IncompatibleTypes`. -/
theorem C7_plus_operator_semantics_witness :
    (⟨.Plus, "+", none, 1⟩ : Token).token_type = .Plus ∧
    evaluate_expression 5 (.Literal (.Number ⟨1, 1⟩)) initState =
      some (.ok (.Number ⟨1, 1⟩), initState) ∧
    evaluate_expression 5 (.Literal (.String "a")) initState =
      some (.ok (.String "a"), initState) ∧
    evaluate_expression 7 (.Binary (.Literal (.Number ⟨1, 1⟩)) ⟨.Plus, "+", none, 1⟩ (.Literal (.String "a"))) initState =
      some (.error .IncompatibleTypes, initState) :=
  ⟨rfl, by with_unfolding_all rfl, by with_unfolding_all rfl,
   C7_plus_operator_semantics 5 _ _ _ _ _ _ _ _ rfl (by with_unfolding_all rfl) (by with_unfolding_all rfl)⟩

/-- Stage fact for C10: scanning `c10src` yields `c10toks`. -/
theorem c10_scan : scan_tokens 200 c10src = some ([], .ok c10toks) := by with_unfolding_all rfl

/-- Stage fact for C10: parsing `c10toks` yields `c10stmts`, with
`a = b = c` as right-nested `Assign` nodes inside the `print`. -/
theorem c10_parse : parse 200 c10toks = some ([], .ok c10stmts) := by with_unfolding_all rfl

/-- Stage fact for C10: interpreting `c10stmts` prints `5` twice — the
chained assignment assigns `5` to `b` and then to `a`, and the whole
expression evaluates to `5`. -/
theorem c10_interp : interpret 200 c10stmts =
    some (.ok (), ⟨[⟨[("a", .Number ⟨5, 1⟩), ("b", .Number ⟨5, 1⟩), ("c", .Number ⟨5, 1⟩)], none⟩],
      0, [.Number ⟨5, 1⟩, .Number ⟨5, 1⟩]⟩) := by
  with_unfolding_all rfl

/-- C10: a successfully evaluated `Assign` expression's value is the
evaluated right-hand side — whenever the whole assignment yields `v`,
the right-hand side evaluated to that same `v` and the heap was updated
by `Environment::assign`; concretely, chaining works:
`print a = b = c;` prints the assigned value. -/
theorem C10_assign_evaluates_to_assigned_value :
    (∀ (fuel : Nat) (name : Token) (sub : Expression) (st st' : InterpState) (v : Value),
      evaluate_expression (fuel + 1) (.Assign name sub) st = some (.ok v, st') →
      ∃ st1 heap',
        evaluate_expression fuel sub st = some (.ok v, st1) ∧
        envAssign (st1.heap.length + 1) st1.heap st1.env name.lexeme v = some (.ok heap') ∧
        st' = { st1 with heap := heap' }) ∧
    runProgram 200 c10src = some [.Number ⟨5, 1⟩, .Number ⟨5, 1⟩] := by
  constructor
  · intro fuel name sub st st' v h
    simp only [evaluate_expression] at h
    split at h
    · exact absurd h (by simp)
    · exact absurd h (by simp)
    · rename_i value st1 hx
      split at h
      · exact absurd h (by simp)
      · exact absurd h (by simp)
      · rename_i heap' hy
        simp only [Option.some.injEq, Prod.mk.injEq, Except.ok.injEq] at h
        obtain ⟨hv, hst⟩ := h
        subst hv
        exact ⟨st1, heap', hx, hy, hst.symm⟩
  · simp only [runProgram, c10_scan, c10_parse, c10_interp]

/-- Witness for C10 at a concrete input: `x = 2` over a global scope
defining `x` evaluates to the assigned value `2`. -/
theorem C10_assign_evaluates_to_assigned_value_witness :
    (evaluate_expression 6 (.Assign ⟨.Identifier, "x", none, 1⟩ (.Literal (.Number ⟨2, 1⟩)))
        ⟨[⟨[("x", .Number ⟨0, 1⟩)], none⟩], 0, []⟩ =
      some (.ok (.Number ⟨2, 1⟩), ⟨[⟨[("x", .Number ⟨2, 1⟩)], none⟩], 0, []⟩)) ∧
    ∃ st1 heap',
      evaluate_expression 5 (.Literal (.Number ⟨2, 1⟩)) ⟨[⟨[("x", .Number ⟨0, 1⟩)], none⟩], 0, []⟩ =
        some (.ok (.Number ⟨2, 1⟩), st1) ∧
      envAssign (st1.heap.length + 1) st1.heap st1.env
        (⟨.Identifier, "x", none, 1⟩ : Token).lexeme (.Number ⟨2, 1⟩) = some (.ok heap') ∧
      (⟨[⟨[("x", .Number ⟨2, 1⟩)], none⟩], 0, []⟩ : InterpState) = { st1 with heap := heap' } :=
  ⟨by with_unfolding_all rfl,
   C10_assign_evaluates_to_assigned_value.1 5 _ _ _ _ _ (by with_unfolding_all rfl)⟩

/-- Stage fact for C5: scanning `c5src1` yields `c5toks1`. -/
theorem c5_scan1 : scan_tokens 100 c5src1 = some ([], .ok c5toks1) := by with_unfolding_all rfl

/-- Stage fact for C5: parsing `c5toks1` yields `c5expr1` (`*` nested
under `+`). -/
theorem c5_parseE1 : parseExpression 100 c5toks1 = some (.ok c5expr1) := by with_unfolding_all rfl

/-- Stage fact for C5: `c5expr1` evaluates to `7`. -/
theorem c5_eval1 : evaluate_expression 100 c5expr1 initState = some (.ok (.Number ⟨7, 1⟩), initState) := by
  with_unfolding_all rfl

/-- Stage fact for C5: scanning `c5src2` yields `c5toks2`. -/
theorem c5_scan2 : scan_tokens 100 c5src2 = some ([], .ok c5toks2) := by with_unfolding_all rfl

/-- Stage fact for C5: parsing `c5toks2` yields `c5expr2` (the grouping
is the left operand of `*`). -/
theorem c5_parseE2 : parseExpression 100 c5toks2 = some (.ok c5expr2) := by with_unfolding_all rfl

/-- Stage fact for C5: `c5expr2` evaluates to `9`. -/
theorem c5_eval2 : evaluate_expression 100 c5expr2 initState = some (.ok (.Number ⟨9, 1⟩), initState) := by
  with_unfolding_all rfl

/-- C5: precedence and associativity tie-breaks.  For arbitrary operand
tokens `a - b - c` parses left-nested as `((a - b) - c)`; `a = b = c`
parses right-nested as `(a = (b = c))`; `1 + 2 * 3` evaluates to `7`
while `(1 + 2) * 3` evaluates to `9`. -/
theorem C5_precedence_and_associativity :
    (∀ (sa sb sc sm1 sm2 : String) (la lb lc lm1 lm2 : Nat)
       (va vb vc vm1 vm2 : Option Value) (tEnd : Token),
      parseExpression 30
        [⟨.Identifier, sa, va, la⟩, ⟨.Minus, sm1, vm1, lm1⟩, ⟨.Identifier, sb, vb, lb⟩,
         ⟨.Minus, sm2, vm2, lm2⟩, ⟨.Identifier, sc, vc, lc⟩, tEnd] =
        some (.ok (.Binary
          (.Binary (.Variable ⟨.Identifier, sa, va, la⟩) ⟨.Minus, sm1, vm1, lm1⟩
            (.Variable ⟨.Identifier, sb, vb, lb⟩))
          ⟨.Minus, sm2, vm2, lm2⟩ (.Variable ⟨.Identifier, sc, vc, lc⟩)))) ∧
    (∀ (sa sb sc se1 se2 : String) (la lb lc le1 le2 : Nat)
       (va vb vc ve1 ve2 : Option Value) (tEnd : Token),
      parseExpression 30
        [⟨.Identifier, sa, va, la⟩, ⟨.Equal, se1, ve1, le1⟩, ⟨.Identifier, sb, vb, lb⟩,
         ⟨.Equal, se2, ve2, le2⟩, ⟨.Identifier, sc, vc, lc⟩, tEnd] =
        some (.ok (.Assign ⟨.Identifier, sa, va, la⟩
          (.Assign ⟨.Identifier, sb, vb, lb⟩ (.Variable ⟨.Identifier, sc, vc, lc⟩))))) ∧
    evalSource 100 c5src1 = some (.ok (.Number ⟨7, 1⟩)) ∧
    evalSource 100 c5src2 = some (.ok (.Number ⟨9, 1⟩)) := by
  refine ⟨?_, ?_, ?_, ?_⟩
  · intro sa sb sc sm1 sm2 la lb lc lm1 lm2 va vb vc vm1 vm2 tEnd
    with_unfolding_all rfl
  · intro sa sb sc se1 se2 la lb lc le1 le2 va vb vc ve1 ve2 tEnd
    with_unfolding_all rfl
  · simp only [evalSource, c5_scan1, c5_parseE1, c5_eval1]
  · simp only [evalSource, c5_scan2, c5_parseE2, c5_eval2]

/-- Stage fact for C6: scanning `c6src1` yields `c6toks1`. -/
theorem c6_scan1 : scan_tokens 100 c6src1 = some ([], .ok c6toks1) := by with_unfolding_all rfl

/-- Stage fact for C6: parsing `c6toks1` yields the `Logical` node
`c6expr1`. -/
theorem c6_parseE1 : parseExpression 100 c6toks1 = some (.ok c6expr1) := by with_unfolding_all rfl

/-- Stage fact for C6: `false and undefinedVariable` evaluates to
`false` — no `UndefinedVariable` error, the right operand is not
evaluated. -/
theorem c6_eval1 : evaluate_expression 100 c6expr1 initState = some (.ok (.Bool false), initState) := by
  with_unfolding_all rfl

/-- Stage fact for C6: scanning `c6src2` yields `c6toks2`. -/
theorem c6_scan2 : scan_tokens 100 c6src2 = some ([], .ok c6toks2) := by with_unfolding_all rfl

/-- Stage fact for C6: parsing `c6toks2` yields the `Logical` node
`c6expr2`. -/
theorem c6_parseE2 : parseExpression 100 c6toks2 = some (.ok c6expr2) := by with_unfolding_all rfl

/-- Stage fact for C6: `true or undefinedVariable` evaluates to `true`. -/
theorem c6_eval2 : evaluate_expression 100 c6expr2 initState = some (.ok (.Bool true), initState) := by
  with_unfolding_all rfl

/-- C6: `Logical` evaluates the left operand first; `or` returns a
truthy left value unchanged and `and` returns a falsy left value
unchanged — in both cases for an arbitrary right operand `r`, which is
never evaluated; otherwise the result is exactly the evaluation of the
right operand from the state after the left.  Concretely, a right
operand naming an undefined variable raises no error when
short-circuited. -/
theorem C6_logical_short_circuit :
    (∀ (fuel : Nat) (l r : Expression) (op : Token) (st st1 : InterpState) (v : Value),
      op.token_type = .Or →
      evaluate_expression fuel l st = some (.ok v, st1) →
      is_truthy v = true →
      evaluate_expression (fuel + 1) (.Logical l op r) st = some (.ok v, st1)) ∧
    (∀ (fuel : Nat) (l r : Expression) (op : Token) (st st1 : InterpState) (v : Value),
      op.token_type = .And →
      evaluate_expression fuel l st = some (.ok v, st1) →
      is_truthy v = false →
      evaluate_expression (fuel + 1) (.Logical l op r) st = some (.ok v, st1)) ∧
    (∀ (fuel : Nat) (l r : Expression) (op : Token) (st st1 : InterpState) (v : Value),
      op.token_type = .Or →
      evaluate_expression fuel l st = some (.ok v, st1) →
      is_truthy v = false →
      evaluate_expression (fuel + 1) (.Logical l op r) st = evaluate_expression fuel r st1) ∧
    (∀ (fuel : Nat) (l r : Expression) (op : Token) (st st1 : InterpState) (v : Value),
      op.token_type = .And →
      evaluate_expression fuel l st = some (.ok v, st1) →
      is_truthy v = true →
      evaluate_expression (fuel + 1) (.Logical l op r) st = evaluate_expression fuel r st1) ∧
    evalSource 100 c6src1 = some (.ok (.Bool false)) ∧
    evalSource 100 c6src2 = some (.ok (.Bool true)) := by
  refine ⟨?_, ?_, ?_, ?_, ?_, ?_⟩
  · intro fuel l r op st st1 v hop hl htr
    simp only [evaluate_expression, hl, hop, htr]
    rfl
  · intro fuel l r op st st1 v hop hl htr
    simp only [evaluate_expression, hl, hop, htr]
    rfl
  · intro fuel l r op st st1 v hop hl htr
    simp only [evaluate_expression, hl, hop, htr]
    rfl
  · intro fuel l r op st st1 v hop hl htr
    simp only [evaluate_expression, hl, hop, htr]
    rfl
  · simp only [evalSource, c6_scan1, c6_parseE1, c6_eval1]
  · simp only [evalSource, c6_scan2, c6_parseE2, c6_eval2]

/-- Witness for C6 at a concrete input: `true` is truthy, so
`or` short-circuits to it for a right operand that would fail. -/
theorem C6_logical_short_circuit_witness :
    (⟨.Or, "or", none, 1⟩ : Token).token_type = .Or ∧
    evaluate_expression 5 (.Literal (.Bool true)) initState = some (.ok (.Bool true), initState) ∧
    is_truthy (.Bool true) = true ∧
    evaluate_expression 6
      (.Logical (.Literal (.Bool true)) ⟨.Or, "or", none, 1⟩
        (.Variable ⟨.Identifier, "q", none, 1⟩)) initState =
      some (.ok (.Bool true), initState) :=
  ⟨rfl, by with_unfolding_all rfl, rfl,
   C6_logical_short_circuit.1 5 _ _ _ _ _ _ rfl (by with_unfolding_all rfl) rfl⟩

/-- Auxiliary for C3: whenever the parse loop finishes with an `ok`
statement list, its reported-error list is empty (statements are only
surfaced on a fully clean parse). -/
theorem c3_parseLoop_ok_empty :
    ∀ (fuel : Nat) (tokens : List Token) (current : Nat) (errs : List ParseError)
      (stmts : List Statement) (errs' : List ParseError) (stmts' : List Statement),
      Parser.parseLoop fuel tokens current errs stmts = some (errs', .ok stmts') → errs' = [] := by
  intro fuel
  induction fuel with
  | zero =>
    intro tokens current errs stmts errs' stmts' h
    exact absurd h (by simp [Parser.parseLoop])
  | succ n ih =>
    intro tokens current errs stmts errs' stmts' h
    simp only [Parser.parseLoop] at h
    split at h
    · -- finish: result is (errs, if errs.isEmpty then ok else error)
      split at h
      · rename_i hemp
        simp only [Option.some.injEq, Prod.mk.injEq] at h
        obtain ⟨he, _⟩ := h
        subst he
        exact List.isEmpty_iff.mp hemp
      · exact absurd h (by simp)
    · -- loop body
      split at h
      · exact absurd h (by simp)
      · exact ih _ _ _ _ _ _ h
      · split at h
        · exact absurd h (by simp)
        · exact ih _ _ _ _ _ _ h
        · exact absurd h (by simp)

/-- Stage fact for C3: scanning `c3src1` yields `c3toks1`. -/
theorem c3_scan1 : scan_tokens 100 c3src1 = some ([], .ok c3toks1) := by with_unfolding_all rfl

/-- Stage fact for C3: parsing `c3toks1` reports two
expected-expression errors (the parser recovered at the first `;` and
found the second error) and fails with the aggregate `HadError`. -/
theorem c3_parse1 : parse 100 c3toks1 =
    some ([.ExpectedExpression 1, .ExpectedExpression 1], .error .HadError) := by
  with_unfolding_all rfl

/-- Stage fact for C3: scanning `c3src2` yields `c3toks2`. -/
theorem c3_scan2 : scan_tokens 100 c3src2 = some ([], .ok c3toks2) := by with_unfolding_all rfl

/-- Stage fact for C3: parsing `c3toks2` reports one error, recovers at
the `var` keyword boundary, parses the remaining declaration, and still
fails with the aggregate `HadError`. -/
theorem c3_parse2 : parse 100 c3toks2 =
    some ([.ExpectedExpression 1], .error .HadError) := by
  with_unfolding_all rfl

/-- C3: the parser does not stop at the first syntax error.  Whenever
`parse` returns statements, no error was reported (recovered statements
are never surfaced next to errors); and concretely, two malformed
statements separated by `;` report two errors before the aggregate
`HadError` failure, and a malformed statement is also recovered at a
keyword boundary (`var`), after which parsing resumes, with the overall
call still failing with `HadError`. -/
theorem C3_parser_error_recovery_aggregates :
    (∀ (fuel : Nat) (tokens : List Token) (errs : List ParseError) (stmts : List Statement),
      parse fuel tokens = some (errs, .ok stmts) → errs = []) ∧
    scanParse 100 c3src1 = some ([.ExpectedExpression 1, .ExpectedExpression 1], .error .HadError) ∧
    scanParse 100 c3src2 = some ([.ExpectedExpression 1], .error .HadError) := by
  refine ⟨?_, ?_, ?_⟩
  · intro fuel tokens errs stmts h
    exact c3_parseLoop_ok_empty fuel tokens 0 [] [] errs stmts h
  · simp only [scanParse, c3_scan1, c3_parse1]
  · simp only [scanParse, c3_scan2, c3_parse2]

/-- Witness for C3 at a concrete input: a clean one-statement parse
returns statements with an empty report list. -/
theorem C3_parser_error_recovery_aggregates_witness :
    (parse 20 [(⟨.Number, "1", some (.Number ⟨1, 1⟩), 1⟩ : Token), ⟨.Semicolon, ";", none, 1⟩,
        ⟨.Eof, "", none, 1⟩] =
      some ([], .ok [.Expression (.Literal (.Number ⟨1, 1⟩))])) ∧
    ([] : List ParseError) = [] :=
  ⟨by with_unfolding_all rfl,
   C3_parser_error_recovery_aggregates.1 20
     [(⟨.Number, "1", some (.Number ⟨1, 1⟩), 1⟩ : Token), ⟨.Semicolon, ";", none, 1⟩,
      ⟨.Eof, "", none, 1⟩]
     [] [.Expression (.Literal (.Number ⟨1, 1⟩))] (by with_unfolding_all rfl)⟩

/-- Stage fact for C8: scanning `c8src1` yields `c8toks1`. -/
theorem c8_scan1 : scan_tokens 100 c8src1 = some ([], .ok c8toks1) := by with_unfolding_all rfl

/-- Stage fact for C8: parsing `c8toks1` yields `c8stmts1` — a bare
`While` with the literal-`true` condition, no `Block` wrapper. -/
theorem c8_parse1 : parse 100 c8toks1 = some ([], .ok c8stmts1) := by with_unfolding_all rfl

/-- Stage fact for C8: scanning `c8src2` yields `c8toks2`. -/
theorem c8_scan2 : scan_tokens 100 c8src2 = some ([], .ok c8toks2) := by with_unfolding_all rfl

/-- Stage fact for C8: parsing `c8toks2` yields `c8stmts2` — the full
`Block`/`While`/`Block` desugaring. -/
theorem c8_parse2 : parse 100 c8toks2 = some ([], .ok c8stmts2) := by with_unfolding_all rfl

/-- C8: `for` desugars at parse time.  Every successful
`Parser::for_statement` result has the desugared `Block`/`While` shape
described by the specification (no dedicated `For` node exists in
`Statement` at all); concretely, `for (;;) print 1;` parses to a bare
`While` with literal-`true` condition, and a `for` with initializer,
condition and increment parses to the full desugared tree. -/
theorem C8_for_desugaring :
    (∀ (fuel : Nat) (tokens : List Token) (current : Nat) (s : Statement) (c' : Nat),
      Parser.for_statement (fuel + 1) tokens current = some (.ok s, c') →
      ∃ ini cond inc body, s = desugarForSpec ini cond inc body) ∧
    scanParse 100 c8src1 = some ([], .ok c8stmts1) ∧
    scanParse 100 c8src2 = some ([], .ok c8stmts2) := by
  refine ⟨?_, ?_, ?_⟩
  · intro fuel tokens current s c' h
    simp only [Parser.for_statement] at h
    iterate 16 (all_goals (try split at h))
    all_goals simp at h
    all_goals
      obtain ⟨h4, -⟩ := h
      subst h4
      first
      | exact ⟨some _, _, some _, _, rfl⟩
      | exact ⟨some _, _, none, _, rfl⟩
      | exact ⟨none, _, some _, _, rfl⟩
      | exact ⟨none, _, none, _, rfl⟩
  · simp only [scanParse, c8_scan1, c8_parse1]
  · simp only [scanParse, c8_scan2, c8_parse2]

/-- Witness for C8 at a concrete input: the header of `c8src1` parsed
by `for_statement` from just after the `for` keyword. -/
theorem C8_for_desugaring_witness :
    (Parser.for_statement 90 c8toks1 1 =
      some (.ok (.While (.Literal (.Bool true)) (.Print (.Literal (.Number ⟨1, 1⟩)))), 8)) ∧
    ∃ ini cond inc body,
      (Statement.While (.Literal (.Bool true)) (.Print (.Literal (.Number ⟨1, 1⟩)))) =
        desugarForSpec ini cond inc body :=
  ⟨by with_unfolding_all rfl,
   C8_for_desugaring.1 89 c8toks1 1 _ 8 (by with_unfolding_all rfl)⟩

/-- Stage fact for C9: scanning `c9src` yields `c9toks`. -/
theorem c9_scan : scan_tokens 100 c9src = some ([], .ok c9toks) := by with_unfolding_all rfl

/-- Stage fact for C9: parsing `c9toks` yields the single expression
statement around `c9expr`. -/
theorem c9_parse : parse 100 c9toks = some ([], .ok [.Expression c9expr]) := by
  with_unfolding_all rfl

/-- Stage fact for C9: `c9expr` evaluates to `3`. -/
theorem c9_evalV : evalValue 100 c9expr = some (.Number ⟨3, 1⟩) := by with_unfolding_all rfl

/-- Stage fact for C9: the display form of `c9expr` is the prefix
S-expression `"(+ 1 2)"`, not Lox source. -/
theorem c9_display : c9expr.display = "(+ 1 2)" := by with_unfolding_all rfl

/-- Stage fact for C9: scanning the display form yields `c9toksRT`. -/
theorem c9_scanRT : scan_tokens 100 "(+ 1 2)" = some ([], .ok c9toksRT) := by
  with_unfolding_all rfl

/-- Stage fact for C9: reparsing the display form fails — after `(` the
`+` token cannot begin an expression. -/
theorem c9_parseRT : parseExpression 100 c9toksRT = some (.error (.ExpectedExpression 1)) := by
  with_unfolding_all rfl

/-- Stage fact for C9: the round trip through the display form produces
no value for `c9expr`. -/
theorem c9_rt_none : displayRoundTripValue 100 c9expr = none := by
  simp only [displayRoundTripValue, c9_display, c9_scanRT, c9_parseRT]

/-- C9 counterexample: the claim fails on the expression parsed from
`1 + 2;`.  That expression evaluates to `3`, but its `Display` form
`"(+ 1 2)"` does not reparse (prefix S-expression notation is not valid
source), so reparsing-and-reevaluating does not yield the same value. -/
theorem C9_display_round_trip_counterexample :
    scanParse 100 c9src = some ([], .ok [.Expression c9expr]) ∧
    evalValue 100 c9expr = some (.Number ⟨3, 1⟩) ∧
    displayRoundTripValue 100 c9expr = none ∧
    displayRoundTripValue 100 c9expr ≠ evalValue 100 c9expr := by
  refine ⟨?_, c9_evalV, c9_rt_none, ?_⟩
  · simp only [scanParse, c9_scan, c9_parse]
  · rw [c9_rt_none, c9_evalV]
    exact fun hh => Option.noConfusion hh

/-- Stage fact for C9: scanning `c9usrc` yields `c9utoks`. -/
theorem c9u_scan : scan_tokens 100 c9usrc = some ([], .ok c9utoks) := by with_unfolding_all rfl

/-- Stage fact for C9: parsing `c9utoks` yields the single expression
statement around the unary negation `c9uexpr`. -/
theorem c9u_parse : parse 100 c9utoks = some ([], .ok [.Expression c9uexpr]) := by
  with_unfolding_all rfl

/-- Stage fact for C9: the display form of `c9uexpr` is `"(- 1)"`. -/
theorem c9u_display : c9uexpr.display = "(- 1)" := by with_unfolding_all rfl

/-- Stage fact for C9: scanning the display form yields `c9utoksRT`. -/
theorem c9u_scanRT : scan_tokens 100 "(- 1)" = some ([], .ok c9utoksRT) := by
  with_unfolding_all rfl

/-- Stage fact for C9: the display form of `c9uexpr` reparses — as a
`Grouping` around the same unary expression. -/
theorem c9u_parseRT : parseExpression 100 c9utoksRT = some (.ok (.Grouping c9uexpr)) := by
  with_unfolding_all rfl

/-- Stage fact for C9: the reparsed `Grouping` evaluates to `-1`. -/
theorem c9u_evalRT : evalValue 100 (.Grouping c9uexpr) = some (.Number ⟨-1, 1⟩) := by
  with_unfolding_all rfl

/-- Stage fact for C9: `c9uexpr` itself evaluates to `-1`. -/
theorem c9u_eval : evalValue 100 c9uexpr = some (.Number ⟨-1, 1⟩) := by with_unfolding_all rfl

/-- Stage fact for C9: the round trip through the display form of
`c9uexpr` produces `-1`. -/
theorem c9u_rt : displayRoundTripValue 100 c9uexpr = some (.Number ⟨-1, 1⟩) := by
  simp only [displayRoundTripValue, c9u_display, c9u_scanRT, c9u_parseRT, c9u_evalRT]

/-- Stage fact for C9: scanning `c9fsrc` yields `c9ftoks`. -/
theorem c9f_scan : scan_tokens 100 c9fsrc = some ([], .ok c9ftoks) := by with_unfolding_all rfl

/-- Stage fact for C9: parsing `c9ftoks` yields the single expression
statement around the fractional literal `c9fexpr`. -/
theorem c9f_parse : parse 100 c9ftoks = some ([], .ok [.Expression c9fexpr]) := by
  with_unfolding_all rfl

/-- Stage fact for C9: the display form of `c9fexpr` is `"45.67"` (the
decimal notation Rust's `{}` prints for the double). -/
theorem c9f_display : c9fexpr.display = "45.67" := by with_unfolding_all rfl

/-- Stage fact for C9: scanning the display form yields `c9ftoksRT`. -/
theorem c9f_scanRT : scan_tokens 100 "45.67" = some ([], .ok c9ftoksRT) := by
  with_unfolding_all rfl

/-- Stage fact for C9: the display form of `c9fexpr` reparses to the
same literal expression. -/
theorem c9f_parseRT : parseExpression 100 c9ftoksRT = some (.ok c9fexpr) := by
  with_unfolding_all rfl

/-- Stage fact for C9: `c9fexpr` evaluates to `4567/100` (the exact
value of `45.67`). -/
theorem c9f_eval : evalValue 100 c9fexpr = some (.Number ⟨4567, 100⟩) := by
  with_unfolding_all rfl

/-- Stage fact for C9: the round trip through the display form of
`c9fexpr` reproduces its value. -/
theorem c9f_rt : displayRoundTripValue 100 c9fexpr = some (.Number ⟨4567, 100⟩) := by
  simp only [displayRoundTripValue, c9f_display, c9f_scanRT, c9f_parseRT, c9f_eval]

/-- C9 amended: the round trip is not an identity in general (see the
counterexample), but in the cases proved here the display form does
reparse and re-evaluate to the original value: single literal tokens —
booleans, `nil`, whole-number and decimal number literals — rescan to
the same literal, and the parsed composite unary negation from `-1;`
displays as `"(- 1)"`, which reparses (as a `Grouping` around the same
unary expression) and re-evaluates to the same value `-1`. -/
theorem C9_display_round_trip_amended :
    (displayRoundTripValue 60 (.Literal (.Bool true)) = evalValue 60 (.Literal (.Bool true)) ∧
      displayRoundTripValue 60 (.Literal (.Bool false)) = evalValue 60 (.Literal (.Bool false)) ∧
      displayRoundTripValue 60 (.Literal .Nil) = evalValue 60 (.Literal .Nil) ∧
      displayRoundTripValue 60 (.Literal (.Number ⟨1, 1⟩)) =
        evalValue 60 (.Literal (.Number ⟨1, 1⟩))) ∧
    (scanParse 100 c9fsrc = some ([], .ok [.Expression c9fexpr]) ∧
      displayRoundTripValue 100 c9fexpr = evalValue 100 c9fexpr ∧
      evalValue 100 c9fexpr = some (.Number ⟨4567, 100⟩)) ∧
    (scanParse 100 c9usrc = some ([], .ok [.Expression c9uexpr]) ∧
      parseExpression 100 c9utoksRT = some (.ok (.Grouping c9uexpr)) ∧
      displayRoundTripValue 100 c9uexpr = evalValue 100 c9uexpr ∧
      evalValue 100 c9uexpr = some (.Number ⟨-1, 1⟩)) := by
  refine ⟨⟨?_, ?_, ?_, ?_⟩, ⟨?_, ?_, c9f_eval⟩, ⟨?_, c9u_parseRT, ?_, c9u_eval⟩⟩
  · with_unfolding_all rfl
  · with_unfolding_all rfl
  · with_unfolding_all rfl
  · with_unfolding_all rfl
  · simp only [scanParse, c9f_scan, c9f_parse]
  · rw [c9f_rt, c9f_eval]
  · simp only [scanParse, c9u_scan, c9u_parse]
  · rw [c9u_rt, c9u_eval]
